import Mathlib

/-!
# EVA backend: document numbering, search and repositories

A shallow embedding of the route handlers of `index.js` and of the Mongoose
schemas under `models/`.  Collections are lists in natural (insertion) order,
handlers are pure functions from the collections and the request to a response
and the new collection.  Text algorithms work on `List Char`.

External engines are modelled only as far as the handlers depend on them:
the regular expression dialect of the database on a fragment
(`Regex.compilar`), the token service and the password hash as parameters.
-/

namespace Eva

/-! ## Text primitives of the JavaScript runtime -/

/-- The character of a decimal digit `d < 10`. -/
def digitoChar (d : Nat) : Char := Char.ofNat (48 + d)

/-- Decimal digits with explicit fuel; `aDigitos` supplies enough of it. -/
def aDigitosCon : Nat → Nat → List Char
  | 0, _ => []
  | fuel + 1, n =>
    if n < 10 then [digitoChar n] else aDigitosCon fuel (n / 10) ++ [digitoChar (n % 10)]

/-- The decimal digits of a non-negative integer, most significant first, as
`Number.prototype.toString` prints them (no leading zero, `0` is `"0"`).
Document counts stay far below `2^53`, where the runtime's numbers are exact. -/
def aDigitos (n : Nat) : List Char := aDigitosCon (n + 1) n

/-- The filler of `String.prototype.padStart`: `relleno` repeated and cut to
`largo` characters. -/
def repetirHasta (relleno : List Char) (largo : Nat) : List Char :=
  ((List.replicate largo relleno).flatten).take largo

/-- The method `String.prototype.padStart(maxLength, fillString)`: the string
itself when it is long enough or the filler is empty, else the truncated
repetition of the filler followed by the string. -/
def padStart (s : List Char) (maxLength : Nat) (fillString : List Char) : List Char :=
  if maxLength ≤ s.length then s
  else if fillString = [] then s
  else repetirHasta fillString (maxLength - s.length) ++ s

/-- The template literal of the create handlers:
`PREFIX-${(count + 1).toString().padStart(4, '0')}`. -/
def generarNumero (prefijo : String) (count : Nat) : String :=
  prefijo ++ "-" ++ String.mk (padStart (aDigitos (count + 1)) 4 ['0'])

/-- The `length` of a JavaScript string: its number of UTF-16 code units. -/
def jsLength (s : String) : Nat :=
  (s.data.map (fun c => if c.toNat < 65536 then 1 else 2)).sum

/-- Splitting at a separator character, as `String.prototype.split(' ')`: the
pieces between the separators, empty pieces included. -/
def splitEn (sep : Char) : List Char → List (List Char)
  | [] => [[]]
  | c :: cs =>
    if c = sep then [] :: splitEn sep cs
    else
      match splitEn sep cs with
      | [] => [[c]]
      | p :: ps => (c :: p) :: ps

/-! ## The regular expression engine, on a fragment

The `$regex` operator hands the query text to the database's regular
expression engine with option `i`.  The fragment modelled here has literal
characters, the dot, backslash escapes of non-alphanumeric characters and the
star quantifier.  Every other construct is reported as `noModelado`. -/

/-- An outcome of an external engine: a value, a rejection of the input, or an
input outside the modelled fragment. -/
inductive Parcial (α : Type) where
  | valor (a : α)
  | error
  | noModelado
  deriving DecidableEq, Repr

namespace Regex

/-- A single-character matcher. -/
inductive Atomo where
  | literal (c : Char)
  | punto
  deriving DecidableEq, Repr

/-- An atom, possibly under a star. -/
structure Pieza where
  atomo : Atomo
  estrella : Bool
  deriving DecidableEq, Repr

/-- Lexical items of a pattern. -/
inductive Token where
  | atomo (a : Atomo)
  | estrella
  | barraFinal
  | otro
  deriving DecidableEq, Repr

/-- The characters with a special meaning outside a character class. -/
def esMeta (c : Char) : Bool :=
  c ∈ ['\\', '^', '$', '.', '[', ']', '|', '(', ')', '?', '*', '+', '{', '}']

/-- Lexing: a backslash makes a following non-alphanumeric character literal,
a backslash before a letter or digit is an escape sequence outside the
fragment, a backslash that ends the pattern is kept as `barraFinal`. -/
def tokens : List Char → List Token
  | [] => []
  | [c] =>
    if c = '\\' then [.barraFinal]
    else if c = '.' then [.atomo .punto]
    else if c = '*' then [.estrella]
    else if esMeta c then [.otro]
    else [.atomo (.literal c)]
  | c :: d :: resto =>
    if c = '\\' then
      (if d.isAlphanum then Token.otro else .atomo (.literal d)) :: tokens resto
    else if c = '.' then .atomo .punto :: tokens (d :: resto)
    else if c = '*' then .estrella :: tokens (d :: resto)
    else if esMeta c then .otro :: tokens (d :: resto)
    else .atomo (.literal c) :: tokens (d :: resto)

/-- Putting a piece in front of a compiled rest. -/
def anteponer (p : Pieza) : Parcial (List Pieza) → Parcial (List Pieza)
  | .valor ps => .valor (p :: ps)
  | .error => .error
  | .noModelado => .noModelado

/-- Grouping tokens into pieces, left to right.  A star with nothing to repeat
and a pattern ending in a lone backslash are compile errors of the engine; a
quantifier after a quantifier and every other construct are outside the
fragment. -/
def piezas : List Token → Parcial (List Pieza)
  | [] => .valor []
  | .atomo _ :: .estrella :: .estrella :: _ => .noModelado
  | .atomo a :: .estrella :: resto => anteponer ⟨a, true⟩ (piezas resto)
  | .atomo a :: resto => anteponer ⟨a, false⟩ (piezas resto)
  | .estrella :: _ => .error
  | .barraFinal :: _ => .error
  | .otro :: _ => .noModelado

/-- Compilation of a pattern text. -/
def compilar (patron : List Char) : Parcial (List Pieza) := piezas (tokens patron)

/-- Case folding of option `i` (ASCII letters). -/
def plegar (c : Char) : Char := c.toLower

/-- Whether an atom accepts a character under option `i`; the dot accepts
everything but a line feed. -/
def Atomo.acepta : Atomo → Char → Bool
  | .literal c, d => plegar c == plegar d
  | .punto, d => d != '\n'

/-- Zero or more characters accepted by `a`, then the continuation `k`. -/
def repetir (a : Atomo) (k : List Char → Bool) : List Char → Bool
  | [] => k []
  | c :: cs => k (c :: cs) || (a.acepta c && repetir a k cs)

/-- Whether the pieces match a prefix of the text. -/
def coincideEn : List Pieza → List Char → Bool
  | [], _ => true
  | p :: ps, cs =>
    if p.estrella then repetir p.atomo (coincideEn ps) cs
    else
      match cs with
      | [] => false
      | c :: resto => p.atomo.acepta c && coincideEn ps resto

/-- Unanchored search: the pieces match at some position of the text. -/
def busca (ps : List Pieza) (texto : List Char) : Bool :=
  texto.tails.any (coincideEn ps)

end Regex

/-! ## Data model (the Mongoose schemas under `models/`) -/

/-- Object identifiers, as numbers. -/
abbrev ObjectId := Nat

/-- Instants, in milliseconds since the epoch. -/
abbrev Fecha := Int

/-- The payload of a bearer token: `{ id, username, role }`. -/
structure Claims where
  id : ObjectId
  username : String
  role : String
  deriving DecidableEq, Repr

/-- A response: `res.status(s).json(body)` with a document body, or with a
`{ message }` body.  `res.json(body)` has status 200. -/
inductive Respuesta (α : Type) where
  | json (status : Nat) (cuerpo : α)
  | mensaje (status : Nat) (message : String)
  deriving DecidableEq, Repr

/-- The status code of a response. -/
def Respuesta.status {α : Type} : Respuesta α → Nat
  | .json s _ => s
  | .mensaje s _ => s

/-- A line of a document, the `items` sub-schema. -/
structure Item where
  descripcion : Option String
  cantidad : Option Int
  precioUnitario : Option Int
  total : Option Int
  deriving DecidableEq, Repr

/-- A stored user, `UserSchema`. -/
structure User where
  _id : ObjectId
  username : String
  password : String
  role : String
  nombre : Option String
  email : Option String
  telefono : Option String
  createdAt : Fecha
  deriving DecidableEq, Repr

/-- A stored client, `ClienteSchema`. -/
structure Cliente where
  _id : ObjectId
  nombre : String
  nit : String
  telefono : Option String
  email : Option String
  direccion : Option String
  tipo : String
  userId : ObjectId
  createdAt : Fecha
  deriving DecidableEq, Repr

/-- A stored invoice, `FacturaSchema`. -/
structure Factura where
  _id : ObjectId
  numero : String
  clienteId : ObjectId
  clienteNombre : String
  fecha : Fecha
  fechaVencimiento : Option Fecha
  subtotal : Int
  iva : Int
  total : Int
  estado : String
  items : List Item
  userId : ObjectId
  createdAt : Fecha
  deriving DecidableEq, Repr

/-- Modelled from the spec: `models/Cotizacion.js` is required by `index.js`
but is not among the sources.  The spec gives a quote the shape of an invoice
without the `estado` field, with a `numero` of its own. -/
structure Cotizacion where
  _id : ObjectId
  numero : String
  clienteId : ObjectId
  clienteNombre : String
  fecha : Fecha
  fechaVencimiento : Option Fecha
  subtotal : Int
  iva : Int
  total : Int
  items : List Item
  userId : ObjectId
  createdAt : Fecha
  deriving DecidableEq, Repr

/-- A stored delivery note, `RemisionSchema`. -/
structure Remision where
  _id : ObjectId
  numero : String
  clienteId : Option ObjectId
  clienteNombre : String
  fecha : Fecha
  direccionEntrega : Option String
  estado : String
  items : List Item
  userId : ObjectId
  createdAt : Fecha
  deriving DecidableEq, Repr

/-- A stored cash movement, `MovimientoSchema`, over the number type `ν` of
its amount. -/
structure Movimiento (ν : Type) where
  _id : ObjectId
  descripcion : String
  monto : ν
  tipo : String
  categoria : String
  fecha : Fecha
  userId : ObjectId

/-! ### Request bodies

A body is the decoded JSON object, restricted to the paths of the schema and
with each present value already cast to the path's type; `none` is an absent
key. -/

/-- The body of `POST /api/register`. -/
structure CuerpoRegistro where
  username : Option String
  password : Option String
  role : Option String
  deriving DecidableEq, Repr

/-- The body of `POST /api/clientes`. -/
structure CuerpoCliente where
  _id : Option ObjectId
  nombre : Option String
  nit : Option String
  telefono : Option String
  email : Option String
  direccion : Option String
  tipo : Option String
  userId : Option ObjectId
  createdAt : Option Fecha
  deriving DecidableEq, Repr

/-- The body of `POST /api/facturas`. -/
structure CuerpoFactura where
  _id : Option ObjectId
  numero : Option String
  clienteId : Option ObjectId
  clienteNombre : Option String
  fecha : Option Fecha
  fechaVencimiento : Option Fecha
  subtotal : Option Int
  iva : Option Int
  total : Option Int
  estado : Option String
  items : List Item
  userId : Option ObjectId
  createdAt : Option Fecha
  deriving DecidableEq, Repr

/-- The body of `POST /api/cotizaciones`. -/
structure CuerpoCotizacion where
  _id : Option ObjectId
  numero : Option String
  clienteId : Option ObjectId
  clienteNombre : Option String
  fecha : Option Fecha
  fechaVencimiento : Option Fecha
  subtotal : Option Int
  iva : Option Int
  total : Option Int
  items : List Item
  userId : Option ObjectId
  createdAt : Option Fecha
  deriving DecidableEq, Repr

/-- The body of `POST /api/remisiones`. -/
structure CuerpoRemision where
  _id : Option ObjectId
  numero : Option String
  clienteId : Option ObjectId
  clienteNombre : Option String
  fecha : Option Fecha
  direccionEntrega : Option String
  estado : Option String
  items : List Item
  userId : Option ObjectId
  createdAt : Option Fecha
  deriving DecidableEq, Repr

/-- The body of `POST /api/movimientos`. -/
structure CuerpoMovimiento (ν : Type) where
  _id : Option ObjectId
  descripcion : Option String
  monto : Option ν
  tipo : Option String
  categoria : Option String
  fecha : Option Fecha
  userId : Option ObjectId

/-! ### Validation and persistence

`new Model(obj)` followed by `save()` applies the defaults, runs the validators
(`required`, which a string path fails when empty, and `enum`) and inserts
under the unique indexes of the collection: `_id`, and the paths declared
`unique: true`. -/

/-- The `required` validator of a string path. -/
def requerido (s : Option String) : Option String :=
  s.filter (fun t => t ≠ "")

/-- The `enum` validator with a default: an absent value takes the default, a
present one must be listed. -/
def enEnum (valores : List String) (defecto : String) : Option String → Option String
  | none => some defecto
  | some v => if v ∈ valores then some v else none

/-- Validation of a new `User` document. -/
def UserSchema.validar (_id : ObjectId) (ahora : Fecha) (username password : Option String)
    (role : Option String) : Option User := do
  let username ← requerido username
  let password ← requerido password
  let role ← enEnum ["admin", "contador", "user"] "user" role
  pure { _id := _id, username := username, password := password, role := role,
         nombre := none, email := none, telefono := none, createdAt := ahora }

/-- Validation of a new `Cliente` document. -/
def ClienteSchema.validar (idNuevo : ObjectId) (ahora : Fecha) (c : CuerpoCliente) :
    Option Cliente := do
  let nombre ← requerido c.nombre
  let nit ← requerido c.nit
  let tipo ← enEnum ["natural", "juridico"] "natural" c.tipo
  let userId ← c.userId
  pure { _id := c._id.getD idNuevo, nombre := nombre, nit := nit, telefono := c.telefono,
         email := c.email, direccion := c.direccion, tipo := tipo, userId := userId,
         createdAt := c.createdAt.getD ahora }

/-- Validation of a new `Factura` document. -/
def FacturaSchema.validar (idNuevo : ObjectId) (ahora : Fecha) (c : CuerpoFactura) :
    Option Factura := do
  let numero ← requerido c.numero
  let clienteId ← c.clienteId
  let clienteNombre ← requerido c.clienteNombre
  let subtotal ← c.subtotal
  let total ← c.total
  let estado ← enEnum ["pendiente", "pagada", "anulada"] "pendiente" c.estado
  let userId ← c.userId
  pure { _id := c._id.getD idNuevo, numero := numero, clienteId := clienteId,
         clienteNombre := clienteNombre, fecha := c.fecha.getD ahora,
         fechaVencimiento := c.fechaVencimiento, subtotal := subtotal, iva := c.iva.getD 0,
         total := total, estado := estado, items := c.items, userId := userId,
         createdAt := c.createdAt.getD ahora }

/-- Modelled from the spec: validation of a new `Cotizacion` document, with
the required paths of an invoice (`models/Cotizacion.js` is not among the
sources). -/
def CotizacionSchema.validar (idNuevo : ObjectId) (ahora : Fecha) (c : CuerpoCotizacion) :
    Option Cotizacion := do
  let numero ← requerido c.numero
  let clienteId ← c.clienteId
  let clienteNombre ← requerido c.clienteNombre
  let subtotal ← c.subtotal
  let total ← c.total
  let userId ← c.userId
  pure { _id := c._id.getD idNuevo, numero := numero, clienteId := clienteId,
         clienteNombre := clienteNombre, fecha := c.fecha.getD ahora,
         fechaVencimiento := c.fechaVencimiento, subtotal := subtotal, iva := c.iva.getD 0,
         total := total, items := c.items, userId := userId,
         createdAt := c.createdAt.getD ahora }

/-- Validation of a new `Remision` document. -/
def RemisionSchema.validar (idNuevo : ObjectId) (ahora : Fecha) (c : CuerpoRemision) :
    Option Remision := do
  let numero ← requerido c.numero
  let clienteNombre ← requerido c.clienteNombre
  let estado ← enEnum ["pendiente", "entregada", "anulada"] "pendiente" c.estado
  let userId ← c.userId
  pure { _id := c._id.getD idNuevo, numero := numero, clienteId := c.clienteId,
         clienteNombre := clienteNombre, fecha := c.fecha.getD ahora,
         direccionEntrega := c.direccionEntrega, estado := estado, items := c.items,
         userId := userId, createdAt := c.createdAt.getD ahora }

/-- Validation of a new `Movimiento` document. -/
def MovimientoSchema.validar {ν : Type} (idNuevo : ObjectId) (ahora : Fecha)
    (c : CuerpoMovimiento ν) : Option (Movimiento ν) := do
  let descripcion ← requerido c.descripcion
  let monto ← c.monto
  let tipo ← c.tipo
  let tipo ← if tipo ∈ ["ingreso", "gasto"] then some tipo else none
  let userId ← c.userId
  pure { _id := c._id.getD idNuevo, descripcion := descripcion, monto := monto, tipo := tipo,
         categoria := c.categoria.getD "General", fecha := c.fecha.getD ahora, userId := userId }

/-- Insertion under unique indexes: `none` (a duplicate key error) when a
stored document has the same value as the new one under one of the `claves`,
else the collection with the document appended. -/
def insertar {α : Type} (claves : List (α → α → Bool)) (col : List α) (d : α) :
    Option (List α) :=
  if col.any (fun e => claves.any (fun k => k e d)) then none else some (col ++ [d])

/-- The unique indexes of the `users` collection: `_id` and `username`. -/
def User.indices : List (User → User → Bool) :=
  [fun a b => a._id == b._id, fun a b => a.username == b.username]

/-- The unique indexes of the `clientes` collection: `_id` and `nit`. -/
def Cliente.indices : List (Cliente → Cliente → Bool) :=
  [fun a b => a._id == b._id, fun a b => a.nit == b.nit]

/-- The unique indexes of the `facturas` collection: `_id` and `numero`. -/
def Factura.indices : List (Factura → Factura → Bool) :=
  [fun a b => a._id == b._id, fun a b => a.numero == b.numero]

/-- Modelled from the spec: the unique indexes of the `cotizacions`
collection, `_id` and `numero` as for invoices (`models/Cotizacion.js` is not
among the sources). -/
def Cotizacion.indices : List (Cotizacion → Cotizacion → Bool) :=
  [fun a b => a._id == b._id, fun a b => a.numero == b.numero]

/-- The unique indexes of the `remisions` collection: `_id` and `numero`. -/
def Remision.indices : List (Remision → Remision → Bool) :=
  [fun a b => a._id == b._id, fun a b => a.numero == b.numero]

/-- The unique index of the `movimientos` collection: `_id`. -/
def Movimiento.indices {ν : Type} : List (Movimiento ν → Movimiento ν → Bool) :=
  [fun a b => a._id == b._id]

/-- The call `doc.save()` for a freshly built document: validation, then the
insertion; `none` when either throws. -/
def guardar {α : Type} (claves : List (α → α → Bool)) (col : List α) (doc : Option α) :
    Option (α × List α) :=
  match doc with
  | none => none
  | some d =>
    match insertar claves col d with
    | none => none
    | some col' => some (d, col')

/-! ## Authentication -/

/-- The expression `req.header('Authorization')?.split(' ')[1]`: the second
space-separated part of the header, when there is one. -/
def leerToken (authorization : Option String) : Option String :=
  match authorization with
  | none => none
  | some h => ((splitEn ' ' h.data).get? 1).map String.mk

/-- The outcome of the middleware: it answers itself, or calls `next()` with
`req.user` set. -/
inductive Acceso where
  | responde (status : Nat) (message : String)
  | next (user : Claims)
  deriving DecidableEq, Repr

/-- The middleware `verificarToken`, over the token service's `verify`
(`none` when `jwt.verify` throws). -/
def verificarToken (verify : String → Option Claims) (authorization : Option String) : Acceso :=
  match leerToken authorization with
  | none => .responde 401 "Acceso denegado. No hay token."
  | some token =>
    if token = "" then .responde 401 "Acceso denegado. No hay token."
    else
      match verify token with
      | some verificado => .next verificado
      | none => .responde 400 "Token inválido"

/-- A protected route `app.METHOD(path, verificarToken, handler)`: the handler
runs only when the middleware calls `next()`. -/
def protegida {ρ : Type} (verify : String → Option Claims) (handler : Claims → ρ)
    (rechazo : Nat → String → ρ) (authorization : Option String) : ρ :=
  match verificarToken verify authorization with
  | .responde status message => rechazo status message
  | .next user => handler user

/-- The body of a successful registration. -/
structure RegistroExitoso (τ : Type) where
  message : String
  token : τ
  user : Claims

/-- The handler of `POST /api/register`, over the password hash and the token
service's `sign`, with the generated identifier, the clock and the generated
salt as inputs. -/
def postRegister {τ : Type} (hash : String → String → String) (sign : Claims → τ)
    (users : List User) (idNuevo : ObjectId) (ahora : Fecha) (salt : String)
    (body : CuerpoRegistro) : Respuesta (RegistroExitoso τ) × List User :=
  let role := body.role.getD "user"
  match users.find? (fun u => some u.username == body.username) with
  | some _ => (.mensaje 400 "El usuario ya existe", users)
  | none =>
    match body.password with
    | none => (.mensaje 500 "Error en el servidor", users)
    | some password =>
      let passwordHashed := hash password salt
      match guardar User.indices users
          (UserSchema.validar idNuevo ahora body.username (some passwordHashed) (some role)) with
      | none => (.mensaje 500 "Error en el servidor", users)
      | some (nuevoUsuario, users') =>
        let token := sign ⟨nuevoUsuario._id, nuevoUsuario.username, nuevoUsuario.role⟩
        (.json 201 { message := "Registro exitoso", token := token,
                     user := ⟨nuevoUsuario._id, nuevoUsuario.username, nuevoUsuario.role⟩ },
         users')

/-! ## Movements -/

/-- The handler of `POST /api/movimientos`. -/
def postMovimientos {ν : Type} (col : List (Movimiento ν)) (user : Claims) (idNuevo : ObjectId)
    (ahora : Fecha) (body : CuerpoMovimiento ν) :
    Respuesta (Movimiento ν) × List (Movimiento ν) :=
  match guardar Movimiento.indices col
      (MovimientoSchema.validar idNuevo ahora { body with userId := some user.id }) with
  | some (movimiento, col') => (.json 201 movimiento, col')
  | none => (.mensaje 400 "Error creando movimiento", col)

/-- The body of `GET /api/resumen`. -/
structure Resumen (ν : Type) where
  saldo : ν
  ingresos : ν
  gastos : ν
  deriving DecidableEq, Repr

/-- The loop of `GET /api/resumen`: the two running totals after the
movements, starting from `acc`. -/
def acumular {ν : Type} [Add ν] (acc : ν × ν) (movimientos : List (Movimiento ν)) : ν × ν :=
  movimientos.foldl
    (fun t m => if m.tipo = "ingreso" then (t.1 + m.monto, t.2) else (t.1, t.2 + m.monto)) acc

/-- The handler of `GET /api/resumen`. -/
def getResumen {ν : Type} [Zero ν] [Add ν] [Sub ν] (col : List (Movimiento ν)) (user : Claims) :
    Respuesta (Resumen ν) :=
  let movimientos := col.filter (fun m => m.userId == user.id)
  let t := acumular (0, 0) movimientos
  .json 200 { saldo := t.1 - t.2, ingresos := t.1, gastos := t.2 }

/-! ## Documents with a generated number -/

/-- The handler of `POST /api/facturas`. -/
def postFacturas (col : List Factura) (user : Claims) (idNuevo : ObjectId) (ahora : Fecha)
    (body : CuerpoFactura) : Respuesta Factura × List Factura :=
  let count := (col.filter (fun f => f.userId == user.id)).length
  let numero := generarNumero "FAC" count
  match guardar Factura.indices col
      (FacturaSchema.validar idNuevo ahora
        { body with numero := some numero, userId := some user.id }) with
  | some (factura, col') => (.json 201 factura, col')
  | none => (.mensaje 400 "Error creando factura", col)

/-- The handler of `POST /api/cotizaciones`. -/
def postCotizaciones (col : List Cotizacion) (user : Claims) (idNuevo : ObjectId)
    (ahora : Fecha) (body : CuerpoCotizacion) : Respuesta Cotizacion × List Cotizacion :=
  let count := (col.filter (fun c => c.userId == user.id)).length
  let numero := generarNumero "COT" count
  match guardar Cotizacion.indices col
      (CotizacionSchema.validar idNuevo ahora
        { body with numero := some numero, userId := some user.id }) with
  | some (cotizacion, col') => (.json 201 cotizacion, col')
  | none => (.mensaje 400 "Error creando cotización", col)

/-- The handler of `POST /api/remisiones`. -/
def postRemisiones (col : List Remision) (user : Claims) (idNuevo : ObjectId) (ahora : Fecha)
    (body : CuerpoRemision) : Respuesta Remision × List Remision :=
  let count := (col.filter (fun r => r.userId == user.id)).length
  let numero := generarNumero "REM" count
  match guardar Remision.indices col
      (RemisionSchema.validar idNuevo ahora
        { body with numero := some numero, userId := some user.id }) with
  | some (remision, col') => (.json 201 remision, col')
  | none => (.mensaje 400 "Error creando remisión", col)

/-! ## Clients -/

/-- The handler of `POST /api/clientes`. -/
def postClientes (col : List Cliente) (user : Claims) (idNuevo : ObjectId) (ahora : Fecha)
    (body : CuerpoCliente) : Respuesta Cliente × List Cliente :=
  match col.find? (fun c => some c.nit == body.nit && c.userId == user.id) with
  | some _ => (.mensaje 400 "Ya existe un cliente con este NIT", col)
  | none =>
    match guardar Cliente.indices col
        (ClienteSchema.validar idNuevo ahora { body with userId := some user.id }) with
    | some (cliente, col') => (.json 201 cliente, col')
    | none => (.mensaje 400 "Error creando cliente", col)

/-! ## Reading one document -/

/-- The value of a hexadecimal digit. -/
def hexValor (c : Char) : Option Nat :=
  if c.isDigit then some (c.toNat - 48)
  else if 'a' ≤ c ∧ c ≤ 'f' then some (c.toNat - 87)
  else if 'A' ≤ c ∧ c ≤ 'F' then some (c.toNat - 55)
  else none

/-- The value of a string of hexadecimal digits. -/
def hexANat (cs : List Char) : Option Nat :=
  cs.foldlM (fun acc c => (hexValor c).map (fun v => acc * 16 + v)) 0

/-- The cast of a route parameter to the type of `_id` in a query filter: a
string of 24 hexadecimal digits is an identifier; a string of 12 bytes or code
units is treated differently by different versions of the driver and is left
outside the model; every other string fails the cast. -/
def castObjectId (s : String) : Parcial ObjectId :=
  match (if s.length = 24 then hexANat s.data else none) with
  | some v => .valor v
  | none => if s.utf8ByteSize = 12 ∨ jsLength s = 12 then .noModelado else .error

/-- An invoice with its `clienteId` path populated. -/
structure FacturaPoblada where
  factura : Factura
  cliente : Option Cliente
  deriving DecidableEq, Repr

/-- The handler of `GET /api/facturas/:id`; `none` when the parameter is
outside the modelled casts. -/
def getFacturaPorId (facturas : List Factura) (clientes : List Cliente) (user : Claims)
    (id : String) : Option (Respuesta FacturaPoblada) :=
  match castObjectId id with
  | .noModelado => none
  | .error => some (.mensaje 500 "Error obteniendo factura")
  | .valor oid =>
    match facturas.find? (fun f => f._id == oid && f.userId == user.id) with
    | none => some (.mensaje 404 "Factura no encontrada")
    | some factura =>
      some (.json 200 ⟨factura, clientes.find? (fun c => c._id == factura.clienteId)⟩)

/-- The handler of `GET /api/clientes/:id`; `none` when the parameter is
outside the modelled casts. -/
def getClientePorId (clientes : List Cliente) (user : Claims) (id : String) :
    Option (Respuesta Cliente) :=
  match castObjectId id with
  | .noModelado => none
  | .error => some (.mensaje 500 "Error obteniendo cliente")
  | .valor oid =>
    match clientes.find? (fun c => c._id == oid && c.userId == user.id) with
    | none => some (.mensaje 404 "Cliente no encontrado")
    | some cliente => some (.json 200 cliente)

/-! ## Search -/

/-- The filter `{ path: { $regex: q, $options: 'i' } }` on a string path. -/
def regexEn (ps : List Regex.Pieza) (campo : String) : Bool :=
  Regex.busca ps campo.data

/-- The same filter on an optional path: an absent value does not match. -/
def regexEnOpcional (ps : List Regex.Pieza) : Option String → Bool
  | none => false
  | some campo => regexEn ps campo

/-- The query `Model.find({ userId, $or: [...] }).limit(n)`: the pattern is
compiled when the query is parsed, whatever the collection holds; the first
`n` matching documents of the user are returned in natural order. -/
def findRegex {α : Type} (userId : α → ObjectId) (campos : List Regex.Pieza → α → Bool)
    (col : List α) (user : ObjectId) (q : String) (limite : Nat) : Parcial (List α) :=
  match Regex.compilar q.data with
  | .valor ps => .valor ((col.filter (fun d => userId d == user && campos ps d)).take limite)
  | .error => .error
  | .noModelado => .noModelado

/-- The `$or` of the document searches: `numero` or `clienteNombre`. -/
def Factura.coincide (ps : List Regex.Pieza) (f : Factura) : Bool :=
  regexEn ps f.numero || regexEn ps f.clienteNombre

/-- The `$or` of the client searches: `nombre`, `nit` or `email`. -/
def Cliente.coincide (ps : List Regex.Pieza) (c : Cliente) : Bool :=
  regexEn ps c.nombre || regexEn ps c.nit || regexEnOpcional ps c.email

/-- The `$or` of the document searches: `numero` or `clienteNombre`. -/
def Cotizacion.coincide (ps : List Regex.Pieza) (c : Cotizacion) : Bool :=
  regexEn ps c.numero || regexEn ps c.clienteNombre

/-- The `$or` of the document searches: `numero` or `clienteNombre`. -/
def Remision.coincide (ps : List Regex.Pieza) (r : Remision) : Bool :=
  regexEn ps r.numero || regexEn ps r.clienteNombre

/-- A record of the global search: the keys of the four object literals, the
ones a literal lacks being `none`. -/
structure Resultado where
  tipo : String
  id : ObjectId
  numero : Option String
  cliente : Option String
  monto : Option Int
  fecha : Option Fecha
  nombre : Option String
  nit : Option String
  telefono : Option String
  email : Option String
  deriving DecidableEq, Repr

/-- The record pushed for an invoice. -/
def Resultado.deFactura (f : Factura) : Resultado :=
  { tipo := "factura", id := f._id, numero := some f.numero, cliente := some f.clienteNombre,
    monto := some f.total, fecha := some f.fecha, nombre := none, nit := none,
    telefono := none, email := none }

/-- The record pushed for a client. -/
def Resultado.deCliente (c : Cliente) : Resultado :=
  { tipo := "cliente", id := c._id, numero := none, cliente := none, monto := none,
    fecha := none, nombre := some c.nombre, nit := some c.nit, telefono := c.telefono,
    email := c.email }

/-- The record pushed for a quote. -/
def Resultado.deCotizacion (c : Cotizacion) : Resultado :=
  { tipo := "cotizacion", id := c._id, numero := some c.numero, cliente := some c.clienteNombre,
    monto := some c.total, fecha := some c.fecha, nombre := none, nit := none,
    telefono := none, email := none }

/-- The record pushed for a delivery note. -/
def Resultado.deRemision (r : Remision) : Resultado :=
  { tipo := "remision", id := r._id, numero := some r.numero, cliente := some r.clienteNombre,
    monto := none, fecha := some r.fecha, nombre := none, nit := none, telefono := none,
    email := none }

/-- The four collections the global search reads. -/
structure Repositorios where
  facturas : List Factura
  clientes : List Cliente
  cotizaciones : List Cotizacion
  remisiones : List Remision

/-- The handler of `GET /api/search/global`; `none` when the query text is a
pattern outside the modelled fragment. -/
def searchGlobal (repos : Repositorios) (user : Claims) (q : Option String) :
    Option (Respuesta (List Resultado)) :=
  match q with
  | none => some (.json 200 [])
  | some q =>
    if q = "" ∨ jsLength q < 2 then some (.json 200 [])
    else
      let userId := user.id
      match findRegex Factura.userId Factura.coincide repos.facturas userId q 5 with
      | .noModelado => none
      | .error => some (.mensaje 500 "Error en búsqueda")
      | .valor facturas =>
        match findRegex Cliente.userId Cliente.coincide repos.clientes userId q 5 with
        | .noModelado => none
        | .error => some (.mensaje 500 "Error en búsqueda")
        | .valor clientes =>
          match findRegex Cotizacion.userId Cotizacion.coincide repos.cotizaciones userId q 5 with
          | .noModelado => none
          | .error => some (.mensaje 500 "Error en búsqueda")
          | .valor cotizaciones =>
            match findRegex Remision.userId Remision.coincide repos.remisiones userId q 5 with
            | .noModelado => none
            | .error => some (.mensaje 500 "Error en búsqueda")
            | .valor remisiones =>
              some (.json 200
                (facturas.map Resultado.deFactura ++ clientes.map Resultado.deCliente
                  ++ cotizaciones.map Resultado.deCotizacion
                  ++ remisiones.map Resultado.deRemision))

/-! ## The filtered list of invoices -/

/-- The query string of `GET /api/facturas-app`. -/
structure ConsultaFacturas where
  estado : Option String
  fechaInicio : Option String
  fechaFin : Option String
  search : Option String
  deriving DecidableEq, Repr

/-- Truthiness of an optional query parameter: present and not empty. -/
def presente : Option String → Option String
  | some s => if s = "" then none else some s
  | none => none

/-- The value of two decimal digits. -/
def dosDigitos (a b : Char) : Option Nat :=
  if a.isDigit ∧ b.isDigit then some ((a.toNat - 48) * 10 + (b.toNat - 48)) else none

/-- The days of a month of a year. -/
def diasDelMes (y m : Nat) : Nat :=
  if m = 2 then (if y % 4 = 0 ∧ (y % 100 ≠ 0 ∨ y % 400 = 0) then 29 else 28)
  else if m = 4 ∨ m = 6 ∨ m = 9 ∨ m = 11 then 30
  else 31

/-- The days from 1970-01-01 to a date of the proleptic Gregorian calendar,
for a year from 1 on. -/
def diasDesdeEpoca (y m d : Nat) : Int :=
  let y' := if m ≤ 2 then y - 1 else y
  let era := y' / 400
  let yoe := y' % 400
  let mp := if m > 2 then m - 3 else m + 9
  let doy := (153 * mp + 2) / 5 + d - 1
  let doe := yoe * 365 + yoe / 4 - yoe / 100 + doy
  ((era * 146097 + doe : Nat) : Int) - 719468

/-- The constructor `new Date(text)` on the date-only form `YYYY-MM-DD` of a
calendar date from year 1 on, which is midnight UTC of that day; `none` for
every other text, which is outside the model. -/
def nuevaFecha (texto : String) : Option Fecha :=
  match texto.data with
  | [y1, y2, y3, y4, '-', m1, m2, '-', d1, d2] => do
    let yh ← dosDigitos y1 y2
    let yl ← dosDigitos y3 y4
    let m ← dosDigitos m1 m2
    let d ← dosDigitos d1 d2
    let y := yh * 100 + yl
    if 1 ≤ y ∧ 1 ≤ m ∧ m ≤ 12 ∧ 1 ≤ d ∧ d ≤ diasDelMes y m then
      some (diasDesdeEpoca y m d * 86400000)
    else none
  | _ => none

/-- The condition `if (estado && estado !== 'todos') query.estado = estado`. -/
def filtroEstado (estado : Option String) : Factura → Bool :=
  match presente estado with
  | some e => if e ≠ "todos" then fun f => f.estado == e else fun _ => true
  | none => fun _ => true

/-- The condition `if (fechaInicio && fechaFin) query.fecha = { $gte, $lte }`;
`none` when a date text is outside the modelled fragment. -/
def filtroFecha (fechaInicio fechaFin : Option String) : Option (Factura → Bool) :=
  match presente fechaInicio, presente fechaFin with
  | some a, some b =>
    match nuevaFecha a, nuevaFecha b with
    | some gte, some lte => some (fun f => decide (gte ≤ f.fecha) && decide (f.fecha ≤ lte))
    | _, _ => none
  | _, _ => some (fun _ => true)

/-- The condition `if (search) query.$or = [...]`, with the pattern compiled. -/
def filtroTexto (search : Option String) : Parcial (Factura → Bool) :=
  match presente search with
  | some s =>
    match Regex.compilar s.data with
    | .valor ps => .valor (Factura.coincide ps)
    | .error => .error
    | .noModelado => .noModelado
  | none => .valor (fun _ => true)

/-- The handler of `GET /api/facturas-app`; `none` when a date parameter or
the search text is outside the modelled fragments. -/
def getFacturasApp (col : List Factura) (user : Claims) (query : ConsultaFacturas) :
    Option (Respuesta (List Factura)) :=
  match filtroFecha query.fechaInicio query.fechaFin, filtroTexto query.search with
  | none, _ => none
  | _, .noModelado => none
  | some _, .error => some (.mensaje 500 "Error obteniendo facturas")
  | some enFecha, .valor enTexto =>
    let facturas := col.filter
      (fun f => f.userId == user.id && filtroEstado query.estado f && enFecha f && enTexto f)
    some (.json 200 (facturas.insertionSort (fun a b => a.fecha ≥ b.fecha)))

/-! ## Notions of the specification -/

/-- The number format in the words of the specification: the prefix, a hyphen,
and the decimal representation of `n + 1` left-padded with `'0'` to width 4. -/
def numeroEspec (prefijo : String) (n : Nat) : String :=
  prefijo ++ "-" ++ String.mk (List.replicate (4 - (Nat.repr (n + 1)).length) '0')
    ++ Nat.repr (n + 1)

/-- Reading a decimal numeral from the left, starting from `acc`. -/
def leerDecimal (acc : Nat) : List Char → Option Nat
  | [] => some acc
  | c :: cs => if c.isDigit then leerDecimal (acc * 10 + (c.toNat - 48)) cs else none

/-- The numeric suffix of a document number: what follows the three-letter
prefix and the hyphen, read as a decimal numeral. -/
def sufijoNumerico (numero : String) : Option Nat :=
  match numero.data.drop 4 with
  | [] => none
  | ds => leerDecimal 0 ds

/-- A handled create request: the authenticated user, the identifier and the
clock value drawn while handling it, and the body. -/
structure Peticion (β : Type) where
  user : Claims
  idNuevo : ObjectId
  ahora : Fecha
  body : β

/-- The collections reachable from the empty one by create requests handled
one at a time. -/
inductive Alcanzable {α β : Type} (paso : List α → Peticion β → List α) : List α → Prop where
  | vacia : Alcanzable paso []
  | crear (col : List α) (r : Peticion β) : Alcanzable paso col → Alcanzable paso (paso col r)

/-- One handled `POST /api/facturas`. -/
def pasoFacturas (col : List Factura) (r : Peticion CuerpoFactura) : List Factura :=
  (postFacturas col r.user r.idNuevo r.ahora r.body).2

/-- One handled `POST /api/cotizaciones`. -/
def pasoCotizaciones (col : List Cotizacion) (r : Peticion CuerpoCotizacion) : List Cotizacion :=
  (postCotizaciones col r.user r.idNuevo r.ahora r.body).2

/-- One handled `POST /api/remisiones`. -/
def pasoRemisiones (col : List Remision) (r : Peticion CuerpoRemision) : List Remision :=
  (postRemisiones col r.user r.idNuevo r.ahora r.body).2

/-- The numeric suffixes of the documents of a user, in creation order. -/
def sufijosDe {α : Type} (userId : α → ObjectId) (numero : α → String) (col : List α)
    (u : ObjectId) : List (Option Nat) :=
  (col.filter (fun d => userId d == u)).map (fun d => sufijoNumerico (numero d))

/-- The number of documents of a user, `countDocuments({ userId })`. -/
def cuenta {α : Type} (userId : α → ObjectId) (col : List α) (u : ObjectId) : Nat :=
  (col.filter (fun d => userId d == u)).length

end Eva

namespace Eva

/-! ## Notions of the specification: search -/

/-- Case-insensitive substring in the words of the specification: the folded
query occurs as a contiguous block of the folded field. -/
def contieneSinCaja (q campo : String) : Bool :=
  decide ((q.data.map Regex.plegar) <:+: (campo.data.map Regex.plegar))

/-- The same on an optional field: an absent value contains nothing. -/
def contieneSinCajaOpcional (q : String) : Option String → Bool
  | none => false
  | some campo => contieneSinCaja q campo

/-- The pieces of a text taken literally. -/
def Regex.literales (q : List Char) : List Regex.Pieza := q.map (fun c => ⟨.literal c, false⟩)

/-- The match condition of a search on one document: the `$or` of the patterns
compiled from the query text. -/
def condicion {α : Type} (campos : List Regex.Pieza → α → Bool) (q : String) (d : α) :
    Parcial Bool :=
  match Regex.compilar q.data with
  | .valor ps => .valor (campos ps d)
  | .error => .error
  | .noModelado => .noModelado

/-! ## Notions of the specification: the summary -/

/-- The sum of `monto` over the movements of one `tipo`, added up in the order
of the list from zero. -/
def sumaDeTipo {ν : Type} [Zero ν] [Add ν] (tipo : String) (movimientos : List (Movimiento ν)) :
    ν :=
  ((movimientos.filter (fun m => m.tipo == tipo)).map (fun m => m.monto)).foldl (· + ·) 0

end Eva

namespace Eva

/-! ## Example data -/

/-- A valid invoice body with no `_id`, `numero` or `userId` of its own. -/
def cuerpoFacturaEjemplo : CuerpoFactura :=
  { _id := none, numero := none, clienteId := some 5, clienteNombre := some "Ana",
    fecha := none, fechaVencimiento := none, subtotal := some 100, iva := none,
    total := some 119, estado := none, items := [], userId := none, createdAt := none }

/-- The invoice stored for `cuerpoFacturaEjemplo` by user 7 in an empty
collection, with generated identifier 1 at instant 0. -/
def facturaEjemplo : Factura :=
  { _id := 1, numero := "FAC-0001", clienteId := 5, clienteNombre := "Ana", fecha := 0,
    fechaVencimiento := none, subtotal := 100, iva := 0, total := 119, estado := "pendiente",
    items := [], userId := 7, createdAt := 0 }

/-- Three handled requests: two invoices of user 7, between them an attempt
of user 8. -/
def coleccionEjemplo : List Factura :=
  pasoFacturas
    (pasoFacturas
      (pasoFacturas [] ⟨⟨7, "ana", "user"⟩, 1, 0, cuerpoFacturaEjemplo⟩)
      ⟨⟨8, "luis", "user"⟩, 2, 10, cuerpoFacturaEjemplo⟩)
    ⟨⟨7, "ana", "user"⟩, 3, 20, cuerpoFacturaEjemplo⟩

/-- A client of user 8. -/
def clienteEjemplo : Cliente :=
  { _id := 5, nombre := "Ana Ruiz", nit := "900", telefono := none, email := none,
    direccion := none, tipo := "natural", userId := 8, createdAt := 0 }

/-- A valid client body with the NIT of `clienteEjemplo`. -/
def cuerpoClienteEjemplo : CuerpoCliente :=
  { _id := none, nombre := some "Ana Ruiz", nit := some "900", telefono := none, email := none,
    direccion := none, tipo := none, userId := none, createdAt := none }

/-- Repositories with one invoice of user 7 and one client of user 8. -/
def reposEjemplo : Repositorios :=
  { facturas := [facturaEjemplo], clientes := [clienteEjemplo], cotizaciones := [],
    remisiones := [] }

/-- Empty repositories. -/
def reposVacios : Repositorios :=
  { facturas := [], clientes := [], cotizaciones := [], remisiones := [] }

/-- An income of 100 and an expense of 30 of user 7. -/
def movimientosEjemplo : List (Movimiento Int) :=
  [{ _id := 1, descripcion := "venta", monto := 100, tipo := "ingreso", categoria := "General",
     fecha := 0, userId := 7 },
   { _id := 2, descripcion := "compra", monto := 30, tipo := "gasto", categoria := "General",
     fecha := 0, userId := 7 }]

/-- A stored user. -/
def usuarioEjemplo : User :=
  { _id := 8, username := "luis", password := "hash", role := "contador", nombre := none,
    email := none, telefono := none, createdAt := 0 }

/-- The body `cuerpoFacturaEjemplo` carrying a `numero` and a `userId` of its
own. -/
def cuerpoFacturaAjeno : CuerpoFactura :=
  { cuerpoFacturaEjemplo with numero := some "FAC-9999", userId := some 99 }

/-- The invoice stored for `cuerpoFacturaEjemplo` by user 8 in an empty
collection, with generated identifier 2 at instant 0. -/
def facturaEjemploOcho : Factura :=
  { facturaEjemplo with _id := 2, userId := 8 }

/-! ## Notions of the specification: retries -/

/-- Handling create requests for invoices one after the other: the responses
in order and the final collection. -/
def atenderFacturas (col : List Factura) :
    List (Peticion CuerpoFactura) → List (Respuesta Factura) × List Factura
  | [] => ([], col)
  | r :: rs =>
    let paso := postFacturas col r.user r.idNuevo r.ahora r.body
    let resto := atenderFacturas paso.2 rs
    (paso.1 :: resto.1, resto.2)

/-- Handling create requests for delivery notes one after the other: the
responses in order and the final collection. -/
def atenderRemisiones (col : List Remision) :
    List (Peticion CuerpoRemision) → List (Respuesta Remision) × List Remision
  | [] => ([], col)
  | r :: rs =>
    let paso := postRemisiones col r.user r.idNuevo r.ahora r.body
    let resto := atenderRemisiones paso.2 rs
    (paso.1 :: resto.1, resto.2)

end Eva

/-! # Theorems -/

namespace Eva

/-! ## Numbering -/

theorem aDigitosCon_fuel (f g n : Nat) (hf : n < f) (hg : n < g) :
    aDigitosCon f n = aDigitosCon g n := by
  induction f generalizing g n with
  | zero => omega
  | succ f ih =>
    cases g with
    | zero => omega
    | succ g =>
      simp only [aDigitosCon]
      split
      · rfl
      · rw [ih g (n / 10) (by omega) (by omega)]

theorem aDigitos_eq (n : Nat) :
    aDigitos n = if n < 10 then [digitoChar n] else aDigitos (n / 10) ++ [digitoChar (n % 10)] := by
  by_cases h : n < 10
  · simp [aDigitos, aDigitosCon, h]
  · have e : aDigitosCon (n + 1) n = aDigitosCon n (n / 10) ++ [digitoChar (n % 10)] := by
      simp [aDigitosCon, h]
    rw [if_neg h]
    unfold aDigitos
    rw [e, aDigitosCon_fuel n (n / 10 + 1) (n / 10) (by omega) (by omega)]

theorem digitoChar_eq (d : Nat) (h : d < 10) : digitoChar d = Nat.digitChar d := by
  interval_cases d <;> rfl

theorem digitoChar_isDigit (d : Nat) (h : d < 10) :
    (digitoChar d).isDigit = true ∧ (digitoChar d).toNat - 48 = d := by
  interval_cases d <;> decide

theorem toDigitsCore_eq (f n : Nat) (ds : List Char) (h : n < f) :
    Nat.toDigitsCore 10 f n ds = aDigitos n ++ ds := by
  induction f generalizing n ds with
  | zero => omega
  | succ f ih =>
    rw [aDigitos_eq]
    simp only [Nat.toDigitsCore]
    by_cases h10 : n < 10
    · have : n / 10 = 0 := by omega
      simp [this, h10, digitoChar_eq n h10, Nat.mod_eq_of_lt h10]
    · have : n / 10 ≠ 0 := by omega
      simp [this, h10, ih (n / 10) _ (by omega), digitoChar_eq (n % 10) (by omega)]

/-- The digits of `aDigitos` are the decimal representation `Nat.repr`. -/
theorem aDigitos_repr (n : Nat) : String.mk (aDigitos n) = Nat.repr n := by
  simp [Nat.repr, Nat.toDigits, toDigitsCore_eq n.succ n [] (by omega), List.asString]

theorem aDigitos_length_pos (n : Nat) : 0 < (aDigitos n).length := by
  rw [aDigitos_eq]; split <;> simp

theorem aDigitos_length_ge (n : Nat) (h : 1000 ≤ n) : 4 ≤ (aDigitos n).length := by
  rw [aDigitos_eq, if_neg (by omega), aDigitos_eq (n / 10), if_neg (by omega),
    aDigitos_eq (n / 10 / 10), if_neg (by omega)]
  have := aDigitos_length_pos (n / 10 / 10 / 10)
  simp only [List.length_append, List.length_singleton]
  omega

theorem flatten_replicate_singleton (k : Nat) (c : Char) :
    (List.replicate k [c]).flatten = List.replicate k c := by
  induction k with
  | zero => rfl
  | succ k ih => simp [List.replicate_succ, ih]

theorem padStart_cero (s : List Char) :
    padStart s 4 ['0'] = List.replicate (4 - s.length) '0' ++ s := by
  unfold padStart
  by_cases h : 4 ≤ s.length
  · simp [h, Nat.sub_eq_zero_of_le h]
  · simp [h, repetirHasta, flatten_replicate_singleton]

theorem generarNumero_espec (prefijo : String) (n : Nat) :
    generarNumero prefijo n = numeroEspec prefijo n := by
  unfold generarNumero numeroEspec
  rw [padStart_cero, ← aDigitos_repr]
  simp [String.length, String.append_assoc]
  rfl

theorem leerDecimal_append (acc : Nat) (xs ys : List Char) :
    leerDecimal acc (xs ++ ys) = (leerDecimal acc xs).bind (fun a => leerDecimal a ys) := by
  induction xs generalizing acc with
  | nil => simp [leerDecimal]
  | cons c cs ih =>
    simp only [List.cons_append, leerDecimal]
    split
    · exact ih _
    · rfl

theorem leerDecimal_aDigitos (n : Nat) : leerDecimal 0 (aDigitos n) = some n := by
  induction n using Nat.strong_induction_on with
  | _ n ih =>
    rw [aDigitos_eq]
    by_cases h : n < 10
    · simp [h, leerDecimal, digitoChar_isDigit n h]
    · rw [if_neg h, leerDecimal_append, ih (n / 10) (by omega)]
      simp only [Option.some_bind, leerDecimal, (digitoChar_isDigit (n % 10) (by omega)).1,
        (digitoChar_isDigit (n % 10) (by omega)).2, if_true]
      congr 1
      omega

theorem leerDecimal_ceros (k : Nat) : leerDecimal 0 (List.replicate k '0') = some 0 := by
  induction k with
  | zero => rfl
  | succ k ih => simp [List.replicate_succ, leerDecimal, ih]

theorem generarNumero_data (a b c : Char) (n : Nat) :
    (generarNumero (String.mk [a, b, c]) n).data.drop 4 = padStart (aDigitos (n + 1)) 4 ['0'] := by
  simp [generarNumero, String.data_append]

/-- Reading the suffix of a generated number gives back the count plus one. -/
theorem sufijoNumerico_generarNumero (a b c : Char) (n : Nat) :
    sufijoNumerico (generarNumero (String.mk [a, b, c]) n) = some (n + 1) := by
  unfold sufijoNumerico
  rw [generarNumero_data, padStart_cero]
  have hpos := aDigitos_length_pos (n + 1)
  have hlee : leerDecimal 0 (List.replicate (4 - (aDigitos (n + 1)).length) '0' ++ aDigitos (n + 1))
      = some (n + 1) := by
    rw [leerDecimal_append, leerDecimal_ceros]
    exact leerDecimal_aDigitos (n + 1)
  split
  · next h =>
    have : (List.replicate (4 - (aDigitos (n + 1)).length) '0' ++ aDigitos (n + 1)).length = 0 := by
      rw [h]; rfl
    simp only [List.length_append, List.length_replicate] at this
    omega
  · exact hlee

end Eva

namespace Eva

/-! ## Persistence and the create handlers -/

theorem requerido_some {s : Option String} {t : String} (h : requerido s = some t) :
    s = some t ∧ t ≠ "" := by
  cases s with
  | none => simp [requerido] at h
  | some v =>
    simp only [requerido, Option.filter] at h
    split at h
    · simp at h; subst h; simp_all
    · simp at h

theorem insertar_some {α : Type} {claves : List (α → α → Bool)} {col col' : List α} {d : α}
    (h : insertar claves col d = some col') :
    col' = col ++ [d] ∧ col.any (fun e => claves.any (fun k => k e d)) = false := by
  unfold insertar at h
  split at h
  · simp at h
  · simp at h; subst h; simp_all

theorem guardar_some {α : Type} {claves : List (α → α → Bool)} {col col' : List α}
    {doc : Option α} {d : α} (h : guardar claves col doc = some (d, col')) :
    doc = some d ∧ col' = col ++ [d] ∧ col.any (fun e => claves.any (fun k => k e d)) = false := by
  unfold guardar at h
  cases doc with
  | none => simp at h
  | some x =>
    simp only at h
    cases hi : insertar claves col x with
    | none => simp [hi] at h
    | some c =>
      simp [hi] at h
      obtain ⟨rfl, rfl⟩ := h
      exact ⟨rfl, insertar_some hi⟩

theorem guardar_libre {α : Type} {claves : List (α → α → Bool)} {col : List α} {d : α}
    (h : col.any (fun e => claves.any (fun k => k e d)) = false) :
    guardar claves col (some d) = some (d, col ++ [d]) := by
  simp [guardar, insertar, h]

theorem validarFactura_some {idNuevo : ObjectId} {ahora : Fecha} {c : CuerpoFactura}
    {f : Factura} (h : FacturaSchema.validar idNuevo ahora c = some f) :
    c.numero = some f.numero ∧ c.userId = some f.userId ∧ f._id = c._id.getD idNuevo := by
  simp only [FacturaSchema.validar, Option.bind_eq_bind, Option.bind_eq_some, Option.pure_def,
    Option.some.injEq] at h
  obtain ⟨n, hn, _, _, _, _, _, _, _, _, _, _, u, hu, rfl⟩ := h
  exact ⟨(requerido_some hn).1, hu, rfl⟩

theorem validarCotizacion_some {idNuevo : ObjectId} {ahora : Fecha}
    {c : CuerpoCotizacion} {f : Cotizacion}
    (h : CotizacionSchema.validar idNuevo ahora c = some f) :
    c.numero = some f.numero ∧ c.userId = some f.userId ∧ f._id = c._id.getD idNuevo := by
  simp only [CotizacionSchema.validar, Option.bind_eq_bind, Option.bind_eq_some,
    Option.pure_def, Option.some.injEq] at h
  obtain ⟨n, hn, _, _, _, _, _, _, _, _, u, hu, rfl⟩ := h
  exact ⟨(requerido_some hn).1, hu, rfl⟩

theorem validarRemision_some {idNuevo : ObjectId} {ahora : Fecha} {c : CuerpoRemision}
    {f : Remision} (h : RemisionSchema.validar idNuevo ahora c = some f) :
    c.numero = some f.numero ∧ c.userId = some f.userId ∧ f._id = c._id.getD idNuevo := by
  simp only [RemisionSchema.validar, Option.bind_eq_bind, Option.bind_eq_some, Option.pure_def,
    Option.some.injEq] at h
  obtain ⟨n, hn, _, _, _, _, u, hu, rfl⟩ := h
  exact ⟨(requerido_some hn).1, hu, rfl⟩

/-- The two outcomes of `POST /api/facturas`. -/
theorem postFacturas_casos (col : List Factura) (user : Claims) (idNuevo : ObjectId)
    (ahora : Fecha) (body : CuerpoFactura) :
    postFacturas col user idNuevo ahora body = (.mensaje 400 "Error creando factura", col) ∨
    ∃ f, postFacturas col user idNuevo ahora body = (.json 201 f, col ++ [f]) ∧
      f.numero = generarNumero "FAC" (cuenta Factura.userId col user.id) ∧
      f.userId = user.id ∧ f._id = body._id.getD idNuevo ∧
      col.any (fun e => Factura.indices.any (fun k => k e f)) = false := by
  unfold postFacturas
  simp only
  cases hg : guardar Factura.indices col (FacturaSchema.validar idNuevo ahora
      { body with numero := some (generarNumero "FAC"
          (col.filter (fun f => f.userId == user.id)).length), userId := some user.id }) with
  | none => left; rfl
  | some r =>
    obtain ⟨f, col'⟩ := r
    obtain ⟨hv, rfl, hlibre⟩ := guardar_some hg
    obtain ⟨hn, hu, hid⟩ := validarFactura_some hv
    right
    refine ⟨f, rfl, ?_, ?_, hid, hlibre⟩
    · simpa [cuenta] using hn.symm
    · simpa using hu.symm

/-- The two outcomes of `POST /api/cotizaciones`. -/
theorem postCotizaciones_casos (col : List Cotizacion) (user : Claims) (idNuevo : ObjectId)
    (ahora : Fecha) (body : CuerpoCotizacion) :
    postCotizaciones col user idNuevo ahora body = (.mensaje 400 "Error creando cotización", col) ∨
    ∃ f, postCotizaciones col user idNuevo ahora body = (.json 201 f, col ++ [f]) ∧
      f.numero = generarNumero "COT" (cuenta Cotizacion.userId col user.id) ∧
      f.userId = user.id ∧ f._id = body._id.getD idNuevo ∧
      col.any (fun e => Cotizacion.indices.any (fun k => k e f)) = false := by
  unfold postCotizaciones
  simp only
  cases hg : guardar Cotizacion.indices col (CotizacionSchema.validar idNuevo ahora
      { body with numero := some (generarNumero "COT"
          (col.filter (fun f => f.userId == user.id)).length), userId := some user.id }) with
  | none => left; rfl
  | some r =>
    obtain ⟨f, col'⟩ := r
    obtain ⟨hv, rfl, hlibre⟩ := guardar_some hg
    obtain ⟨hn, hu, hid⟩ := validarCotizacion_some hv
    right
    refine ⟨f, rfl, ?_, ?_, hid, hlibre⟩
    · simpa [cuenta] using hn.symm
    · simpa using hu.symm

/-- The two outcomes of `POST /api/remisiones`. -/
theorem postRemisiones_casos (col : List Remision) (user : Claims) (idNuevo : ObjectId)
    (ahora : Fecha) (body : CuerpoRemision) :
    postRemisiones col user idNuevo ahora body = (.mensaje 400 "Error creando remisión", col) ∨
    ∃ f, postRemisiones col user idNuevo ahora body = (.json 201 f, col ++ [f]) ∧
      f.numero = generarNumero "REM" (cuenta Remision.userId col user.id) ∧
      f.userId = user.id ∧ f._id = body._id.getD idNuevo ∧
      col.any (fun e => Remision.indices.any (fun k => k e f)) = false := by
  unfold postRemisiones
  simp only
  cases hg : guardar Remision.indices col (RemisionSchema.validar idNuevo ahora
      { body with numero := some (generarNumero "REM"
          (col.filter (fun f => f.userId == user.id)).length), userId := some user.id }) with
  | none => left; rfl
  | some r =>
    obtain ⟨f, col'⟩ := r
    obtain ⟨hv, rfl, hlibre⟩ := guardar_some hg
    obtain ⟨hn, hu, hid⟩ := validarRemision_some hv
    right
    refine ⟨f, rfl, ?_, ?_, hid, hlibre⟩
    · simpa [cuenta] using hn.symm
    · simpa using hu.symm

end Eva

namespace Eva

theorem postFacturas_json {col col' : List Factura} {user : Claims} {idNuevo : ObjectId}
    {ahora : Fecha} {body : CuerpoFactura} {s : Nat} {f : Factura}
    (h : postFacturas col user idNuevo ahora body = (.json s f, col')) :
    s = 201 ∧ col' = col ++ [f] ∧
      f.numero = generarNumero "FAC" (cuenta Factura.userId col user.id) ∧ f.userId = user.id := by
  rcases postFacturas_casos col user idNuevo ahora body with h400 | ⟨g, hg, hn, hu, _, _⟩
  · rw [h400] at h; cases h
  · rw [hg] at h; cases h; exact ⟨rfl, rfl, hn, hu⟩

theorem postCotizaciones_json {col col' : List Cotizacion} {user : Claims} {idNuevo : ObjectId}
    {ahora : Fecha} {body : CuerpoCotizacion} {s : Nat} {f : Cotizacion}
    (h : postCotizaciones col user idNuevo ahora body = (.json s f, col')) :
    s = 201 ∧ col' = col ++ [f] ∧
      f.numero = generarNumero "COT" (cuenta Cotizacion.userId col user.id) ∧
      f.userId = user.id := by
  rcases postCotizaciones_casos col user idNuevo ahora body with h400 | ⟨g, hg, hn, hu, _, _⟩
  · rw [h400] at h; cases h
  · rw [hg] at h; cases h; exact ⟨rfl, rfl, hn, hu⟩

theorem postRemisiones_json {col col' : List Remision} {user : Claims} {idNuevo : ObjectId}
    {ahora : Fecha} {body : CuerpoRemision} {s : Nat} {f : Remision}
    (h : postRemisiones col user idNuevo ahora body = (.json s f, col')) :
    s = 201 ∧ col' = col ++ [f] ∧
      f.numero = generarNumero "REM" (cuenta Remision.userId col user.id) ∧ f.userId = user.id := by
  rcases postRemisiones_casos col user idNuevo ahora body with h400 | ⟨g, hg, hn, hu, _, _⟩
  · rw [h400] at h; cases h
  · rw [hg] at h; cases h; exact ⟨rfl, rfl, hn, hu⟩

/-- Appending a document numbered from its owner's count keeps every user's
suffixes equal to `1, ..., count`. -/
theorem sufijos_append {α : Type} (userId : α → ObjectId) (numero : α → String) (a b c : Char)
    (col : List α) (f : α)
    (hinv : ∀ u, sufijosDe userId numero col u = (List.range' 1 (cuenta userId col u)).map some)
    (hnum : numero f = generarNumero (String.mk [a, b, c]) (cuenta userId col (userId f)))
    (u : ObjectId) :
    sufijosDe userId numero (col ++ [f]) u
      = (List.range' 1 (cuenta userId (col ++ [f]) u)).map some := by
  by_cases hu : userId f = u
  · subst hu
    have hc : cuenta userId (col ++ [f]) (userId f) = cuenta userId col (userId f) + 1 := by
      simp [cuenta, List.filter_append]
    have hs : sufijosDe userId numero (col ++ [f]) (userId f)
        = sufijosDe userId numero col (userId f) ++ [sufijoNumerico (numero f)] := by
      simp [sufijosDe, List.filter_append]
    rw [hs, hc, hinv, hnum, sufijoNumerico_generarNumero, List.range'_concat]
    simp [Nat.add_comm]
  · have hc : cuenta userId (col ++ [f]) u = cuenta userId col u := by
      simp [cuenta, List.filter_append, hu]
    have hs : sufijosDe userId numero (col ++ [f]) u = sufijosDe userId numero col u := by
      simp [sufijosDe, List.filter_append, hu]
    rw [hs, hc, hinv]

theorem sufijos_facturas (col : List Factura) (h : Alcanzable pasoFacturas col) (u : ObjectId) :
    sufijosDe Factura.userId Factura.numero col u
      = (List.range' 1 (cuenta Factura.userId col u)).map some := by
  induction h generalizing u with
  | vacia => rfl
  | crear col r _ ih =>
    unfold pasoFacturas
    rcases postFacturas_casos col r.user r.idNuevo r.ahora r.body with h400 | ⟨f, hf, hn, hu, _, _⟩
    · rw [h400]; exact ih u
    · rw [hf]
      exact sufijos_append Factura.userId Factura.numero 'F' 'A' 'C' col f ih (by rw [hn, hu]) u

theorem sufijos_cotizaciones (col : List Cotizacion) (h : Alcanzable pasoCotizaciones col)
    (u : ObjectId) :
    sufijosDe Cotizacion.userId Cotizacion.numero col u
      = (List.range' 1 (cuenta Cotizacion.userId col u)).map some := by
  induction h generalizing u with
  | vacia => rfl
  | crear col r _ ih =>
    unfold pasoCotizaciones
    rcases postCotizaciones_casos col r.user r.idNuevo r.ahora r.body with
      h400 | ⟨f, hf, hn, hu, _, _⟩
    · rw [h400]; exact ih u
    · rw [hf]
      exact sufijos_append Cotizacion.userId Cotizacion.numero 'C' 'O' 'T' col f ih
        (by rw [hn, hu]) u

theorem sufijos_remisiones (col : List Remision) (h : Alcanzable pasoRemisiones col)
    (u : ObjectId) :
    sufijosDe Remision.userId Remision.numero col u
      = (List.range' 1 (cuenta Remision.userId col u)).map some := by
  induction h generalizing u with
  | vacia => rfl
  | crear col r _ ih =>
    unfold pasoRemisiones
    rcases postRemisiones_casos col r.user r.idNuevo r.ahora r.body with
      h400 | ⟨f, hf, hn, hu, _, _⟩
    · rw [h400]; exact ih u
    · rw [hf]
      exact sufijos_append Remision.userId Remision.numero 'R' 'E' 'M' col f ih
        (by rw [hn, hu]) u

theorem alcanzableEjemplo : Alcanzable pasoFacturas coleccionEjemplo :=
  Alcanzable.crear _ _ (Alcanzable.crear _ _ (Alcanzable.crear _ _ Alcanzable.vacia))

/-! ## C1 and C2 -/

/-- C1: at a successful creation of an invoice, quote or delivery note by a
user owning `n` documents of that kind, the stored `numero` is the kind's
prefix, a hyphen and `n + 1` in decimal left-padded with zeros to width 4; for
`n = 0` that is `FAC-0001`, and from `n + 1 = 10000` on all digits are kept. -/
theorem C1_numero_asignado :
    (∀ (col col' : List Factura) (user : Claims) (idNuevo : ObjectId) (ahora : Fecha)
        (body : CuerpoFactura) (s : Nat) (f : Factura),
        postFacturas col user idNuevo ahora body = (.json s f, col') →
        f.numero = numeroEspec "FAC" (cuenta Factura.userId col user.id)) ∧
    (∀ (col col' : List Cotizacion) (user : Claims) (idNuevo : ObjectId) (ahora : Fecha)
        (body : CuerpoCotizacion) (s : Nat) (f : Cotizacion),
        postCotizaciones col user idNuevo ahora body = (.json s f, col') →
        f.numero = numeroEspec "COT" (cuenta Cotizacion.userId col user.id)) ∧
    (∀ (col col' : List Remision) (user : Claims) (idNuevo : ObjectId) (ahora : Fecha)
        (body : CuerpoRemision) (s : Nat) (f : Remision),
        postRemisiones col user idNuevo ahora body = (.json s f, col') →
        f.numero = numeroEspec "REM" (cuenta Remision.userId col user.id)) ∧
    numeroEspec "FAC" 0 = "FAC-0001" ∧
    (∀ (prefijo : String) (n : Nat), 10000 ≤ n + 1 →
        numeroEspec prefijo n = prefijo ++ "-" ++ Nat.repr (n + 1)) := by
  refine ⟨?_, ?_, ?_, by decide, ?_⟩
  · intro col col' user idNuevo ahora body s f h
    rw [(postFacturas_json h).2.2.1, generarNumero_espec]
  · intro col col' user idNuevo ahora body s f h
    rw [(postCotizaciones_json h).2.2.1, generarNumero_espec]
  · intro col col' user idNuevo ahora body s f h
    rw [(postRemisiones_json h).2.2.1, generarNumero_espec]
  · intro prefijo n hn
    have h4 : 4 ≤ (Nat.repr (n + 1)).length := by
      rw [← aDigitos_repr]
      exact aDigitos_length_ge (n + 1) (by omega)
    unfold numeroEspec
    rw [Nat.sub_eq_zero_of_le h4]
    simp [String.append_assoc]

/-- C1, witness: the first invoice of user 7 is stored as `FAC-0001`. -/
theorem C1_numero_asignado_witness :
    postFacturas [] ⟨7, "ana", "user"⟩ 1 0 cuerpoFacturaEjemplo
        = (.json 201 facturaEjemplo, [facturaEjemplo]) ∧
      facturaEjemplo.numero = numeroEspec "FAC" (cuenta Factura.userId [] 7) :=
  ⟨by decide, C1_numero_asignado.1 [] [facturaEjemplo] ⟨7, "ana", "user"⟩ 1 0
    cuerpoFacturaEjemplo 201 facturaEjemplo (by decide)⟩

/-- C2: in every collection reachable by creations handled one at a time,
the numeric suffixes of a user's documents of one kind are, in creation order,
exactly `1, 2, ..., c` for the `c` documents the user owns, and a further
successful creation by that user stores suffix `c + 1` as one more document
of the user. -/
theorem C2_numeracion_sin_huecos :
    (∀ (col : List Factura), Alcanzable pasoFacturas col → ∀ (user : Claims),
        sufijosDe Factura.userId Factura.numero col user.id
          = (List.range' 1 (cuenta Factura.userId col user.id)).map some ∧
        ∀ (idNuevo : ObjectId) (ahora : Fecha) (body : CuerpoFactura) (s : Nat) (f : Factura)
          (col' : List Factura),
          postFacturas col user idNuevo ahora body = (.json s f, col') →
          sufijoNumerico f.numero = some (cuenta Factura.userId col user.id + 1) ∧
            f.userId = user.id ∧ col' = col ++ [f]) ∧
    (∀ (col : List Cotizacion), Alcanzable pasoCotizaciones col → ∀ (user : Claims),
        sufijosDe Cotizacion.userId Cotizacion.numero col user.id
          = (List.range' 1 (cuenta Cotizacion.userId col user.id)).map some ∧
        ∀ (idNuevo : ObjectId) (ahora : Fecha) (body : CuerpoCotizacion) (s : Nat)
          (f : Cotizacion) (col' : List Cotizacion),
          postCotizaciones col user idNuevo ahora body = (.json s f, col') →
          sufijoNumerico f.numero = some (cuenta Cotizacion.userId col user.id + 1) ∧
            f.userId = user.id ∧ col' = col ++ [f]) ∧
    (∀ (col : List Remision), Alcanzable pasoRemisiones col → ∀ (user : Claims),
        sufijosDe Remision.userId Remision.numero col user.id
          = (List.range' 1 (cuenta Remision.userId col user.id)).map some ∧
        ∀ (idNuevo : ObjectId) (ahora : Fecha) (body : CuerpoRemision) (s : Nat) (f : Remision)
          (col' : List Remision),
          postRemisiones col user idNuevo ahora body = (.json s f, col') →
          sufijoNumerico f.numero = some (cuenta Remision.userId col user.id + 1) ∧
            f.userId = user.id ∧ col' = col ++ [f]) := by
  refine ⟨?_, ?_, ?_⟩
  · intro col hcol user
    refine ⟨sufijos_facturas col hcol user.id, ?_⟩
    intro idNuevo ahora body s f col' h
    obtain ⟨_, hc, hn, hu⟩ := postFacturas_json h
    exact ⟨by rw [hn]; exact sufijoNumerico_generarNumero 'F' 'A' 'C' _, hu, hc⟩
  · intro col hcol user
    refine ⟨sufijos_cotizaciones col hcol user.id, ?_⟩
    intro idNuevo ahora body s f col' h
    obtain ⟨_, hc, hn, hu⟩ := postCotizaciones_json h
    exact ⟨by rw [hn]; exact sufijoNumerico_generarNumero 'C' 'O' 'T' _, hu, hc⟩
  · intro col hcol user
    refine ⟨sufijos_remisiones col hcol user.id, ?_⟩
    intro idNuevo ahora body s f col' h
    obtain ⟨_, hc, hn, hu⟩ := postRemisiones_json h
    exact ⟨by rw [hn]; exact sufijoNumerico_generarNumero 'R' 'E' 'M' _, hu, hc⟩

/-- C2, witness: after two invoices of user 7 and a rejected attempt of user 8
the suffixes of user 7 are `1, 2`. -/
theorem C2_numeracion_sin_huecos_witness :
    Alcanzable pasoFacturas coleccionEjemplo ∧
      sufijosDe Factura.userId Factura.numero coleccionEjemplo 7 = [some 1, some 2] :=
  ⟨alcanzableEjemplo,
    ((C2_numeracion_sin_huecos.1 coleccionEjemplo alcanzableEjemplo ⟨7, "ana", "user"⟩).1).trans
      (by decide)⟩

end Eva

namespace Eva

/-! ## The regular expression fragment on literal text -/

namespace Regex

theorem tokens_literal (q : List Char) (h : ∀ c ∈ q, esMeta c = false) :
    tokens q = q.map (fun c => Token.atomo (.literal c)) := by
  induction q with
  | nil => rfl
  | cons c cs ih =>
    have hc : esMeta c = false := h c (List.mem_cons_self _ _)
    have h1 : c ≠ '\\' := by rintro rfl; simp [esMeta] at hc
    have h2 : c ≠ '.' := by rintro rfl; simp [esMeta] at hc
    have h3 : c ≠ '*' := by rintro rfl; simp [esMeta] at hc
    have ih' := ih (fun d hd => h d (List.mem_cons_of_mem _ hd))
    cases cs with
    | nil => simp [tokens, h1, h2, h3, hc]
    | cons d ds => simp [tokens, h1, h2, h3, hc, ih']

theorem piezas_literal (q : List Char) :
    piezas (q.map (fun c => Token.atomo (.literal c))) = .valor (literales q) := by
  induction q with
  | nil => rfl
  | cons c cs ih =>
    cases cs with
    | nil => simp [piezas, anteponer, literales]
    | cons d ds =>
      simp only [List.map_cons] at ih ⊢
      rw [piezas]
      · rw [ih]; rfl
      all_goals simp

theorem compilar_literal (q : List Char) (h : ∀ c ∈ q, esMeta c = false) :
    compilar q = .valor (literales q) := by
  rw [compilar, tokens_literal q h, piezas_literal]

theorem coincideEn_literales (q cs : List Char) :
    coincideEn (literales q) cs = true ↔ (q.map plegar) <+: (cs.map plegar) := by
  induction q generalizing cs with
  | nil => simp [literales, coincideEn]
  | cons c q ih =>
    cases cs with
    | nil => simp [literales, coincideEn]
    | cons d ds =>
      have ih' := ih ds
      simp only [literales] at ih'
      simp [literales, coincideEn, Atomo.acepta, ih', List.cons_prefix_cons]

theorem busca_literales (q cs : List Char) :
    busca (literales q) cs = true ↔ (q.map plegar) <:+: (cs.map plegar) := by
  simp only [busca, List.any_eq_true, List.mem_tails, coincideEn_literales]
  constructor
  · rintro ⟨t, ht, hp⟩
    exact List.infix_iff_prefix_suffix.mpr ⟨t.map plegar, hp, ht.map plegar⟩
  · intro h
    obtain ⟨t', hp, hs⟩ := List.infix_iff_prefix_suffix.mp h
    obtain ⟨k, rfl⟩ : ∃ k, t' = (cs.drop k).map plegar := by
      obtain ⟨pre, hpre⟩ := hs
      refine ⟨pre.length, ?_⟩
      have := congrArg (List.drop pre.length) hpre
      simpa [List.map_drop] using this
    exact ⟨cs.drop k, List.drop_suffix k cs, hp⟩

end Regex

theorem regexEn_literales (q campo : String) :
    regexEn (Regex.literales q.data) campo = contieneSinCaja q campo := by
  rw [Bool.eq_iff_iff]
  simp [regexEn, contieneSinCaja, Regex.busca_literales]

theorem regexEnOpcional_literales (q : String) (campo : Option String) :
    regexEnOpcional (Regex.literales q.data) campo = contieneSinCajaOpcional q campo := by
  cases campo with
  | none => rfl
  | some c => exact regexEn_literales q c

end Eva

namespace Eva

/-! ## C3 and C4: the global search -/

theorem jsLength_empty : jsLength "" = 0 := rfl

theorem findRegex_valor {α : Type} (userId : α → ObjectId)
    (campos : List Regex.Pieza → α → Bool) (col : List α) (user : ObjectId) (q : String)
    (limite : Nat) (ps : List Regex.Pieza) (h : Regex.compilar q.data = .valor ps) :
    findRegex userId campos col user q limite
      = .valor ((col.filter (fun d => userId d == user && campos ps d)).take limite) := by
  simp [findRegex, h]

theorem findRegex_error {α : Type} (userId : α → ObjectId)
    (campos : List Regex.Pieza → α → Bool) (col : List α) (user : ObjectId) (q : String)
    (limite : Nat) (h : Regex.compilar q.data = .error) :
    findRegex userId campos col user q limite = .error := by
  simp [findRegex, h]

/-- What the first `n` matching documents of a user satisfy. -/
theorem bloque_props {α : Type} (userId : α → ObjectId) (p : α → Bool) (col : List α)
    (user : ObjectId) (n : Nat) :
    ((col.filter (fun d => userId d == user && p d)).take n).length ≤ n ∧
    ∀ d ∈ (col.filter (fun d => userId d == user && p d)).take n,
      d ∈ col ∧ userId d = user ∧ p d = true := by
  refine ⟨List.length_take_le _ _, ?_⟩
  intro d hd
  have := List.mem_of_mem_take hd
  simp only [List.mem_filter, Bool.and_eq_true, beq_iff_eq] at this
  exact ⟨this.1, this.2.1, this.2.2⟩

/-- C3 (amended): the global search answers the empty list, whatever the
repositories hold, when `q` is missing or shorter than 2; for a longer `q` that
the engine compiles it answers the concatenation, in the order factura,
cliente, cotizacion, remision, of four blocks of at most 5 records each, every
record tagged with its block's `tipo` and built from a matching document of the
requesting user; for a longer `q` that the engine rejects it answers 500. -/
theorem C3_busqueda_global (repos : Repositorios) (user : Claims) :
    searchGlobal repos user none = some (.json 200 []) ∧
    (∀ q : String, jsLength q < 2 → searchGlobal repos user (some q) = some (.json 200 [])) ∧
    (∀ (q : String) (ps : List Regex.Pieza), 2 ≤ jsLength q →
      Regex.compilar q.data = .valor ps →
      ∃ (fs : List Factura) (cs : List Cliente) (ts : List Cotizacion) (rs : List Remision),
        searchGlobal repos user (some q)
          = some (.json 200 (fs.map Resultado.deFactura ++ cs.map Resultado.deCliente
              ++ ts.map Resultado.deCotizacion ++ rs.map Resultado.deRemision)) ∧
        fs.length ≤ 5 ∧ cs.length ≤ 5 ∧ ts.length ≤ 5 ∧ rs.length ≤ 5 ∧
        (∀ f ∈ fs, f ∈ repos.facturas ∧ f.userId = user.id ∧ Factura.coincide ps f = true) ∧
        (∀ c ∈ cs, c ∈ repos.clientes ∧ c.userId = user.id ∧ Cliente.coincide ps c = true) ∧
        (∀ t ∈ ts, t ∈ repos.cotizaciones ∧ t.userId = user.id
            ∧ Cotizacion.coincide ps t = true) ∧
        (∀ r ∈ rs, r ∈ repos.remisiones ∧ r.userId = user.id ∧ Remision.coincide ps r = true) ∧
        (∀ x ∈ fs.map Resultado.deFactura, x.tipo = "factura") ∧
        (∀ x ∈ cs.map Resultado.deCliente, x.tipo = "cliente") ∧
        (∀ x ∈ ts.map Resultado.deCotizacion, x.tipo = "cotizacion") ∧
        (∀ x ∈ rs.map Resultado.deRemision, x.tipo = "remision")) ∧
    (∀ q : String, 2 ≤ jsLength q → Regex.compilar q.data = .error →
      searchGlobal repos user (some q) = some (.mensaje 500 "Error en búsqueda")) := by
  refine ⟨rfl, ?_, ?_, ?_⟩
  · intro q hq
    simp [searchGlobal, hq]
  · intro q ps hq hps
    have hne : ¬ (q = "" ∨ jsLength q < 2) := by
      rintro (rfl | h)
      · rw [jsLength_empty] at hq; omega
      · omega
    have bf := bloque_props Factura.userId (Factura.coincide ps) repos.facturas user.id 5
    have bc := bloque_props Cliente.userId (Cliente.coincide ps) repos.clientes user.id 5
    have bt := bloque_props Cotizacion.userId (Cotizacion.coincide ps) repos.cotizaciones user.id 5
    have br := bloque_props Remision.userId (Remision.coincide ps) repos.remisiones user.id 5
    refine ⟨_, _, _, _, ?_, bf.1, bc.1, bt.1, br.1, bf.2, bc.2, bt.2, br.2, ?_, ?_, ?_, ?_⟩
    · simp only [searchGlobal, if_neg hne, findRegex_valor _ _ _ _ _ _ ps hps]
    all_goals
      intro x hx
      obtain ⟨d, _, rfl⟩ := List.mem_map.mp hx
      rfl
  · intro q hq herr
    have hne : ¬ (q = "" ∨ jsLength q < 2) := by
      rintro (rfl | h)
      · rw [jsLength_empty] at hq; omega
      · omega
    simp only [searchGlobal, if_neg hne, findRegex_error _ _ _ _ _ _ herr]

/-- C3, witness: a one-letter query, a query that compiles and one that the
engine rejects, against repositories with one invoice of the user. -/
theorem C3_busqueda_global_witness :
    (jsLength "a" < 2 ∧
      searchGlobal reposEjemplo ⟨7, "ana", "user"⟩ (some "a") = some (.json 200 [])) ∧
    (2 ≤ jsLength "ana" ∧ ∃ rs : List Resultado,
      searchGlobal reposEjemplo ⟨7, "ana", "user"⟩ (some "ana") = some (.json 200 rs)
        ∧ rs.length ≤ 20) ∧
    (2 ≤ jsLength "a\\" ∧
      searchGlobal reposEjemplo ⟨7, "ana", "user"⟩ (some "a\\")
        = some (.mensaje 500 "Error en búsqueda")) := by
  refine ⟨⟨by decide, (C3_busqueda_global reposEjemplo ⟨7, "ana", "user"⟩).2.1 "a" (by decide)⟩,
    ⟨by decide, ?_⟩,
    ⟨by decide, (C3_busqueda_global reposEjemplo ⟨7, "ana", "user"⟩).2.2.2 "a\\" (by decide)
      (by decide)⟩⟩
  obtain ⟨fs, cs, ts, rs, h, h1, h2, h3, h4, _⟩ :=
    (C3_busqueda_global reposEjemplo ⟨7, "ana", "user"⟩).2.2.1 "ana"
      (Regex.literales "ana".data) (by decide) (by decide)
  refine ⟨_, h, ?_⟩
  simp only [List.length_append, List.length_map]
  omega

/-- C3, counterexample: the query `*a` has length 2 and the answer is not a
list of records but the error 500. -/
theorem C3_busqueda_global_contraejemplo :
    2 ≤ jsLength "*a" ∧
      searchGlobal reposVacios ⟨7, "ana", "user"⟩ (some "*a")
        = some (.mensaje 500 "Error en búsqueda") := by
  decide

/-- C4 (amended): for a query text without characters that are special in a
regular expression, the match condition of the global search holds for a
document exactly when the text occurs, ignoring case, as a substring of one of
the fields of its kind: `numero` or `clienteNombre` for an invoice, quote or
delivery note, `nombre`, `nit` or `email` for a client; and the global search
for such a text of length 2 or more returns, per kind, the first 5 documents of
the requesting user with such an occurrence. -/
theorem C4_coincidencia_literal (q : String) (h : ∀ c ∈ q.data, Regex.esMeta c = false) :
    (∀ f : Factura, condicion Factura.coincide q f
      = .valor (contieneSinCaja q f.numero || contieneSinCaja q f.clienteNombre)) ∧
    (∀ c : Cliente, condicion Cliente.coincide q c
      = .valor (contieneSinCaja q c.nombre || contieneSinCaja q c.nit
          || contieneSinCajaOpcional q c.email)) ∧
    (∀ t : Cotizacion, condicion Cotizacion.coincide q t
      = .valor (contieneSinCaja q t.numero || contieneSinCaja q t.clienteNombre)) ∧
    (∀ r : Remision, condicion Remision.coincide q r
      = .valor (contieneSinCaja q r.numero || contieneSinCaja q r.clienteNombre)) ∧
    (∀ (repos : Repositorios) (user : Claims), 2 ≤ jsLength q →
      searchGlobal repos user (some q) = some (.json 200
        (((repos.facturas.filter (fun f => f.userId == user.id &&
              (contieneSinCaja q f.numero || contieneSinCaja q f.clienteNombre))).take 5).map
            Resultado.deFactura
          ++ ((repos.clientes.filter (fun c => c.userId == user.id &&
              (contieneSinCaja q c.nombre || contieneSinCaja q c.nit
                || contieneSinCajaOpcional q c.email))).take 5).map Resultado.deCliente
          ++ ((repos.cotizaciones.filter (fun t => t.userId == user.id &&
              (contieneSinCaja q t.numero || contieneSinCaja q t.clienteNombre))).take 5).map
            Resultado.deCotizacion
          ++ ((repos.remisiones.filter (fun r => r.userId == user.id &&
              (contieneSinCaja q r.numero || contieneSinCaja q r.clienteNombre))).take 5).map
            Resultado.deRemision))) := by
  have hc := Regex.compilar_literal q.data h
  refine ⟨?_, ?_, ?_, ?_, ?_⟩
  · intro f
    simp [condicion, hc, Factura.coincide, regexEn_literales]
  · intro c
    simp [condicion, hc, Cliente.coincide, regexEn_literales, regexEnOpcional_literales]
  · intro t
    simp [condicion, hc, Cotizacion.coincide, regexEn_literales]
  · intro r
    simp [condicion, hc, Remision.coincide, regexEn_literales]
  · intro repos user hq
    have hne : ¬ (q = "" ∨ jsLength q < 2) := by
      rintro (rfl | h2)
      · rw [jsLength_empty] at hq; omega
      · omega
    simp only [searchGlobal, if_neg hne, findRegex_valor _ _ _ _ _ _ _ hc, Factura.coincide,
      Cliente.coincide, Cotizacion.coincide, Remision.coincide, regexEn_literales,
      regexEnOpcional_literales]

/-- C4, witness: `ana` has no special character and matches the invoice of
client `Ana`. -/
theorem C4_coincidencia_literal_witness :
    (∀ c ∈ "ana".data, Regex.esMeta c = false) ∧
      condicion Factura.coincide "ana" facturaEjemplo = .valor true :=
  ⟨by decide, ((C4_coincidencia_literal "ana" (by decide)).1 facturaEjemplo).trans (by decide)⟩

/-- C4, counterexample: the query `..` matches the invoice `FAC-0001` of client
`Ana`, and the global search returns it, though `..` is a substring of neither
field. -/
theorem C4_coincidencia_contraejemplo :
    2 ≤ jsLength ".." ∧
      condicion Factura.coincide ".." facturaEjemplo = .valor true ∧
      contieneSinCaja ".." facturaEjemplo.numero = false ∧
      contieneSinCaja ".." facturaEjemplo.clienteNombre = false ∧
      searchGlobal reposEjemplo ⟨7, "ana", "user"⟩ (some "..")
        = some (.json 200 [Resultado.deFactura facturaEjemplo]) := by
  decide

end Eva

namespace Eva

/-! ## C5: the filtered list of invoices -/

theorem filtroEstado_iff (estado : Option String) (f : Factura) :
    filtroEstado estado f = true ↔
      ∀ e, presente estado = some e → e ≠ "todos" → f.estado = e := by
  unfold filtroEstado
  cases h : presente estado with
  | none => simp
  | some e =>
    by_cases ht : e = "todos"
    · simp [ht]
    · simp [ht]

theorem filtroFecha_iff (fechaInicio fechaFin : Option String) (p : Factura → Bool)
    (h : filtroFecha fechaInicio fechaFin = some p) (f : Factura) :
    p f = true ↔
      ∀ a b gte lte, presente fechaInicio = some a → presente fechaFin = some b →
        nuevaFecha a = some gte → nuevaFecha b = some lte → gte ≤ f.fecha ∧ f.fecha ≤ lte := by
  unfold filtroFecha at h
  cases ha : presente fechaInicio with
  | none => simp [ha] at h; subst h; simp
  | some a =>
    cases hb : presente fechaFin with
    | none => simp [ha, hb] at h; subst h; simp
    | some b =>
      cases hga : nuevaFecha a with
      | none => simp [ha, hb, hga] at h
      | some gte =>
        cases hgb : nuevaFecha b with
        | none => simp [ha, hb, hga, hgb] at h
        | some lte =>
          simp [ha, hb, hga, hgb] at h
          subst h
          simp only [Bool.and_eq_true, decide_eq_true_eq]
          constructor
          · intro hh a' b' g l ha' hb' hg' hl'
            cases ha'; cases hb'
            rw [hga] at hg'; rw [hgb] at hl'
            cases hg'; cases hl'
            exact hh
          · intro hh
            exact hh a b gte lte rfl rfl hga hgb

theorem filtroFecha_isSome (fechaInicio fechaFin : Option String)
    (h : ∀ a b, presente fechaInicio = some a → presente fechaFin = some b →
      (nuevaFecha a).isSome = true ∧ (nuevaFecha b).isSome = true) :
    ∃ p, filtroFecha fechaInicio fechaFin = some p := by
  unfold filtroFecha
  cases ha : presente fechaInicio with
  | none => exact ⟨_, rfl⟩
  | some a =>
    cases hb : presente fechaFin with
    | none => exact ⟨_, rfl⟩
    | some b =>
      obtain ⟨h1, h2⟩ := h a b ha hb
      obtain ⟨gte, hg⟩ := Option.isSome_iff_exists.mp h1
      obtain ⟨lte, hl⟩ := Option.isSome_iff_exists.mp h2
      simp only [hg, hl]
      exact ⟨_, rfl⟩

theorem filtroTexto_valor (search : Option String) (ps : List Regex.Pieza)
    (h : ∀ s, presente search = some s → Regex.compilar s.data = .valor ps) :
    ∃ p, filtroTexto search = .valor p ∧
      ∀ f, p f = true ↔ ∀ s, presente search = some s → Factura.coincide ps f = true := by
  unfold filtroTexto
  cases hs : presente search with
  | none => exact ⟨_, rfl, by simp⟩
  | some s =>
    simp only [h s hs]
    exact ⟨_, rfl, by simp⟩

/-- C5 (amended): `GET /api/facturas-app` combines its filters with a logical
AND: an invoice is returned exactly when it is stored, belongs to the
requesting user and passes each filter in force.  The `estado` filter is in
force when `estado` is supplied, not empty and not `todos`; the date filter,
inclusive at both ends, only when both `fechaInicio` and `fechaFin` are
supplied and not empty; the `search` filter when `search` is supplied and not
empty, its text being a regular expression tried on `numero` and
`clienteNombre`. -/
theorem C5_filtros_and (col : List Factura) (user : Claims) (query : ConsultaFacturas)
    (ps : List Regex.Pieza)
    (hfechas : ∀ a b, presente query.fechaInicio = some a → presente query.fechaFin = some b →
      (nuevaFecha a).isSome = true ∧ (nuevaFecha b).isSome = true)
    (htexto : ∀ s, presente query.search = some s → Regex.compilar s.data = .valor ps) :
    ∃ fs, getFacturasApp col user query = some (.json 200 fs) ∧
      ∀ f, f ∈ fs ↔
        (f ∈ col ∧ f.userId = user.id ∧
          (∀ e, presente query.estado = some e → e ≠ "todos" → f.estado = e) ∧
          (∀ a b gte lte, presente query.fechaInicio = some a →
            presente query.fechaFin = some b → nuevaFecha a = some gte →
            nuevaFecha b = some lte → gte ≤ f.fecha ∧ f.fecha ≤ lte) ∧
          (∀ s, presente query.search = some s → Factura.coincide ps f = true)) := by
  obtain ⟨pf, hpf⟩ := filtroFecha_isSome query.fechaInicio query.fechaFin hfechas
  obtain ⟨pt, hpt, hpt'⟩ := filtroTexto_valor query.search ps htexto
  have hres : getFacturasApp col user query = some (.json 200
      ((col.filter (fun f => f.userId == user.id && filtroEstado query.estado f && pf f
        && pt f)).insertionSort (fun a b => a.fecha ≥ b.fecha))) := by
    simp only [getFacturasApp, hpf, hpt]
  refine ⟨_, hres, ?_⟩
  intro f
  rw [(List.perm_insertionSort _ _).mem_iff]
  simp only [List.mem_filter, Bool.and_eq_true, beq_iff_eq]
  rw [filtroEstado_iff, filtroFecha_iff _ _ pf hpf, hpt']
  tauto

/-- C5, witness: the range 1970-01-01 to 2024-06-01 with the search `fac`. -/
theorem C5_filtros_and_witness :
    ∃ fs, getFacturasApp [facturaEjemplo] ⟨7, "ana", "user"⟩
        ⟨some "pendiente", some "1970-01-01", some "2024-06-01", some "fac"⟩
          = some (.json 200 fs) ∧
      ∀ f, f ∈ fs ↔
        (f ∈ [facturaEjemplo] ∧ f.userId = 7 ∧
          (∀ e, presente (some "pendiente") = some e → e ≠ "todos" → f.estado = e) ∧
          (∀ a b gte lte, presente (some "1970-01-01") = some a →
            presente (some "2024-06-01") = some b → nuevaFecha a = some gte →
            nuevaFecha b = some lte → gte ≤ f.fecha ∧ f.fecha ≤ lte) ∧
          (∀ s, presente (some "fac") = some s →
            Factura.coincide (Regex.literales "fac".data) f = true)) :=
  C5_filtros_and [facturaEjemplo] ⟨7, "ana", "user"⟩
    ⟨some "pendiente", some "1970-01-01", some "2024-06-01", some "fac"⟩
    (Regex.literales "fac".data)
    (by
      intro a b ha hb
      have ea : a = "1970-01-01" := by simpa [presente] using ha.symm
      have eb : b = "2024-06-01" := by simpa [presente] using hb.symm
      subst ea; subst eb
      exact ⟨by decide, by decide⟩)
    (by
      intro s hs
      have es : s = "fac" := by simpa [presente] using hs.symm
      subst es
      decide)

/-- C5, counterexample: with `fechaInicio` alone the date filter is not in
force, and with `estado=todos` no invoice has that state, yet the invoice of
1970-01-01 in state `pendiente` is returned for both. -/
theorem C5_filtros_contraejemplo :
    getFacturasApp [facturaEjemplo] ⟨7, "ana", "user"⟩ ⟨none, some "2024-06-01", none, none⟩
        = some (.json 200 [facturaEjemplo]) ∧
      nuevaFecha "2024-06-01" = some 1717200000000 ∧
      facturaEjemplo.fecha < 1717200000000 ∧
      getFacturasApp [facturaEjemplo] ⟨7, "ana", "user"⟩ ⟨some "todos", none, none, none⟩
        = some (.json 200 [facturaEjemplo]) ∧
      facturaEjemplo.estado ≠ "todos" := by
  decide

end Eva

namespace Eva

/-! ## C6: clients and the NIT -/

theorem validarCliente_some {idNuevo : ObjectId} {ahora : Fecha} {b : CuerpoCliente}
    {c : Cliente} (h : ClienteSchema.validar idNuevo ahora b = some c) :
    b.nit = some c.nit ∧ b.userId = some c.userId ∧ c._id = b._id.getD idNuevo := by
  simp only [ClienteSchema.validar, Option.bind_eq_bind, Option.bind_eq_some, Option.pure_def,
    Option.some.injEq] at h
  obtain ⟨_, _, n, hn, _, _, u, hu, rfl⟩ := h
  exact ⟨(requerido_some hn).1, hu, rfl⟩

theorem any_indices_cliente (col : List Cliente) (c : Cliente) :
    col.any (fun e => Cliente.indices.any (fun k => k e c)) = true ↔
      ∃ e ∈ col, e._id = c._id ∨ e.nit = c.nit := by
  simp [Cliente.indices]

/-- C6 (amended): for a client payload that passes validation and brings no
identifier already stored, `POST /api/clientes` is rejected with 400 and the
store unchanged exactly when a client with the same NIT is stored under any
user; with a client of the same user the pre-check answers, with clients of
other users only the unique index of `nit` rejects the insertion.  Otherwise
the client is stored and returned with 201. -/
theorem C6_nit_duplicado (col : List Cliente) (user : Claims) (idNuevo : ObjectId)
    (ahora : Fecha) (body : CuerpoCliente) (c : Cliente)
    (hval : ClienteSchema.validar idNuevo ahora { body with userId := some user.id } = some c)
    (hid : ∀ e ∈ col, e._id ≠ c._id) :
    ((∃ e ∈ col, e.nit = c.nit) ↔
      ((postClientes col user idNuevo ahora body).1.status = 400 ∧
        (postClientes col user idNuevo ahora body).2 = col)) ∧
    ((∀ e ∈ col, e.nit ≠ c.nit) →
      postClientes col user idNuevo ahora body = (.json 201 c, col ++ [c])) ∧
    ((∃ e ∈ col, e.nit = c.nit ∧ e.userId = user.id) →
      postClientes col user idNuevo ahora body
        = (.mensaje 400 "Ya existe un cliente con este NIT", col)) ∧
    ((∃ e ∈ col, e.nit = c.nit) → (∀ e ∈ col, e.nit = c.nit → e.userId ≠ user.id) →
      postClientes col user idNuevo ahora body = (.mensaje 400 "Error creando cliente", col)) := by
  obtain ⟨hnit, _, _⟩ := validarCliente_some hval
  have hnit' : body.nit = some c.nit := hnit
  -- the pre-check
  have hpre_some : (∃ e ∈ col, e.nit = c.nit ∧ e.userId = user.id) →
      postClientes col user idNuevo ahora body
        = (.mensaje 400 "Ya existe un cliente con este NIT", col) := by
    rintro ⟨e, he, hen, heu⟩
    have : (col.find? (fun x => some x.nit == body.nit && x.userId == user.id)).isSome = true := by
      rw [List.find?_isSome]
      exact ⟨e, he, by simp [hnit', hen, heu]⟩
    obtain ⟨x, hx⟩ := Option.isSome_iff_exists.mp this
    simp only [postClientes, hx]
  have hpre_none : (∀ e ∈ col, e.nit = c.nit → e.userId ≠ user.id) →
      col.find? (fun x => some x.nit == body.nit && x.userId == user.id) = none := by
    intro h
    rw [List.find?_eq_none]
    intro x hx
    simp only [hnit', Bool.and_eq_true, beq_iff_eq, Option.some.injEq, not_and]
    exact fun hn => h x hx hn
  have hotros : (∃ e ∈ col, e.nit = c.nit) → (∀ e ∈ col, e.nit = c.nit → e.userId ≠ user.id) →
      postClientes col user idNuevo ahora body
        = (.mensaje 400 "Error creando cliente", col) := by
    rintro ⟨e, he, hen⟩ h
    have hany : col.any (fun e => Cliente.indices.any (fun k => k e c)) = true :=
      (any_indices_cliente col c).mpr ⟨e, he, Or.inr hen⟩
    simp [postClientes, hpre_none h, hval, guardar, insertar, hany]
  have hlibre : (∀ e ∈ col, e.nit ≠ c.nit) →
      postClientes col user idNuevo ahora body = (.json 201 c, col ++ [c]) := by
    intro h
    have hany : col.any (fun e => Cliente.indices.any (fun k => k e c)) = false := by
      rw [Bool.eq_false_iff]
      intro ht
      obtain ⟨e, he, h1 | h2⟩ := (any_indices_cliente col c).mp ht
      · exact hid e he h1
      · exact h e he h2
    simp only [postClientes, hpre_none (fun e he hn => absurd hn (h e he)), hval,
      guardar_libre hany]
  refine ⟨⟨?_, ?_⟩, hlibre, hpre_some, hotros⟩
  · rintro ⟨e, he, hen⟩
    by_cases hmio : ∃ e ∈ col, e.nit = c.nit ∧ e.userId = user.id
    · rw [hpre_some hmio]; exact ⟨rfl, rfl⟩
    · have : ∀ e ∈ col, e.nit = c.nit → e.userId ≠ user.id :=
        fun x hx hn hu => hmio ⟨x, hx, hn, hu⟩
      rw [hotros ⟨e, he, hen⟩ this]; exact ⟨rfl, rfl⟩
  · rintro ⟨hs, _⟩
    by_contra hno
    have : ∀ e ∈ col, e.nit ≠ c.nit := fun e he hn => hno ⟨e, he, hn⟩
    rw [hlibre this] at hs
    simp [Respuesta.status] at hs

/-- C6, witness: user 8, who owns the client with NIT 900, posts it again. -/
theorem C6_nit_duplicado_witness :
    ClienteSchema.validar 6 0 { cuerpoClienteEjemplo with userId := some 8 }
        = some { clienteEjemplo with _id := 6 } ∧
      postClientes [clienteEjemplo] ⟨8, "luis", "user"⟩ 6 0 cuerpoClienteEjemplo
        = (.mensaje 400 "Ya existe un cliente con este NIT", [clienteEjemplo]) :=
  ⟨by decide,
    (C6_nit_duplicado [clienteEjemplo] ⟨8, "luis", "user"⟩ 6 0 cuerpoClienteEjemplo
      { clienteEjemplo with _id := 6 } (by decide) (by decide)).2.2.1
      ⟨clienteEjemplo, by decide, by decide, by decide⟩⟩

/-- C6, counterexample: the client with NIT 900 exists only under user 8, and
the creation of a client with that NIT by user 7 is rejected with 400. -/
theorem C6_nit_contraejemplo :
    clienteEjemplo.userId = 8 ∧
      postClientes [clienteEjemplo] ⟨7, "ana", "user"⟩ 6 0 cuerpoClienteEjemplo
        = (.mensaje 400 "Error creando cliente", [clienteEjemplo]) := by
  decide

/-! ## C7: the summary -/

theorem acumular_eq {ν : Type} [Add ν] (a b : ν) (movimientos : List (Movimiento ν)) :
    acumular (a, b) movimientos
      = (((movimientos.filter (fun m => m.tipo == "ingreso")).map (fun m => m.monto)).foldl
            (· + ·) a,
         ((movimientos.filter (fun m => !(m.tipo == "ingreso"))).map (fun m => m.monto)).foldl
            (· + ·) b) := by
  induction movimientos generalizing a b with
  | nil => rfl
  | cons m ms ih =>
    unfold acumular at ih ⊢
    rw [List.foldl_cons]
    by_cases h : m.tipo = "ingreso"
    · simp [h, ih]
    · simp [h, ih]

theorem filter_gasto {ν : Type} (movimientos : List (Movimiento ν))
    (h : ∀ m ∈ movimientos, m.tipo = "ingreso" ∨ m.tipo = "gasto") :
    movimientos.filter (fun m => !(m.tipo == "ingreso"))
      = movimientos.filter (fun m => m.tipo == "gasto") := by
  apply List.filter_congr
  intro m hm
  rcases h m hm with h1 | h1 <;> simp [h1]

/-- C7: for a user whose movements are all of `tipo` `ingreso` or `gasto`,
`GET /api/resumen` answers `ingresos`, the sum of `monto` over the `ingreso`
movements, `gastos`, the sum over the `gasto` movements, and
`saldo = ingresos - gastos`, over any number type; for an income of 100 and an
expense of 30 that is saldo 70, ingresos 100, gastos 30, and for no movement
all three are 0. -/
theorem C7_resumen :
    (∀ (ν : Type) [Zero ν] [Add ν] [Sub ν] (col : List (Movimiento ν)) (user : Claims),
      (∀ m ∈ col, m.userId = user.id → m.tipo = "ingreso" ∨ m.tipo = "gasto") →
      getResumen col user = .json 200
        { saldo := sumaDeTipo "ingreso" (col.filter (fun m => m.userId == user.id))
            - sumaDeTipo "gasto" (col.filter (fun m => m.userId == user.id)),
          ingresos := sumaDeTipo "ingreso" (col.filter (fun m => m.userId == user.id)),
          gastos := sumaDeTipo "gasto" (col.filter (fun m => m.userId == user.id)) }) ∧
    getResumen movimientosEjemplo ⟨7, "ana", "user"⟩
      = .json 200 { saldo := 70, ingresos := 100, gastos := 30 } ∧
    getResumen ([] : List (Movimiento Int)) ⟨7, "ana", "user"⟩
      = .json 200 { saldo := 0, ingresos := 0, gastos := 0 } := by
  refine ⟨?_, by decide, by decide⟩
  intro ν _ _ _ col user h
  have hg := filter_gasto (col.filter (fun m => m.userId == user.id)) (by
    intro m hm
    simp only [List.mem_filter, beq_iff_eq] at hm
    exact h m hm.1 hm.2)
  simp only [getResumen, acumular_eq, sumaDeTipo, hg]

/-- C7, witness: the summary of the example movements of user 7. -/
theorem C7_resumen_witness :
    (∀ m ∈ movimientosEjemplo, m.userId = 7 → m.tipo = "ingreso" ∨ m.tipo = "gasto") ∧
      getResumen movimientosEjemplo ⟨7, "ana", "user"⟩ = .json 200
        { saldo := sumaDeTipo "ingreso" (movimientosEjemplo.filter (fun m => m.userId == 7))
            - sumaDeTipo "gasto" (movimientosEjemplo.filter (fun m => m.userId == 7)),
          ingresos := sumaDeTipo "ingreso" (movimientosEjemplo.filter (fun m => m.userId == 7)),
          gastos := sumaDeTipo "gasto" (movimientosEjemplo.filter (fun m => m.userId == 7)) } :=
  ⟨by simp [movimientosEjemplo],
    C7_resumen.1 Int movimientosEjemplo ⟨7, "ana", "user"⟩ (by simp [movimientosEjemplo])⟩

end Eva

namespace Eva

/-! ## C8: the authentication middleware -/

theorem leerToken_none (authorization : Option String) :
    leerToken authorization = none ↔
      authorization = none ∨
        ∃ h, authorization = some h ∧ (splitEn ' ' h.data).length < 2 := by
  cases authorization with
  | none => simp [leerToken]
  | some h =>
    simp only [leerToken, Option.map_eq_none', List.get?_eq_getElem?, reduceCtorEq, false_or,
      Option.some.injEq, exists_eq_left']
    rw [List.getElem?_eq_none_iff]
    omega

/-- C8: on a protected route, a request whose `Authorization` header is
absent, has no second space-separated part, or has an empty one, is answered
401 by the middleware; one whose token the token service rejects is answered
400; in both cases the response is the middleware's, whatever the handler.  The
middleware calls `next()` exactly when a token is read and verified, with
`req.user` the verified claims, and the route's response is then the
handler's. -/
theorem C8_verificarToken (verify : String → Option Claims) (authorization : Option String) :
    ((authorization = none ∨
        (∃ h, authorization = some h ∧ (splitEn ' ' h.data).length < 2) ∨
        leerToken authorization = some "") →
      verificarToken verify authorization = .responde 401 "Acceso denegado. No hay token.") ∧
    (∀ token, leerToken authorization = some token → token ≠ "" → verify token = none →
      verificarToken verify authorization = .responde 400 "Token inválido") ∧
    (∀ user, verificarToken verify authorization = .next user ↔
      ∃ token, leerToken authorization = some token ∧ token ≠ "" ∧ verify token = some user) ∧
    (∀ (ρ : Type) (handler : Claims → ρ) (rechazo : Nat → String → ρ) (status : Nat)
        (message : String),
      verificarToken verify authorization = .responde status message →
      protegida verify handler rechazo authorization = rechazo status message) ∧
    (∀ (ρ : Type) (handler : Claims → ρ) (rechazo : Nat → String → ρ) (user : Claims),
      verificarToken verify authorization = .next user →
      protegida verify handler rechazo authorization = handler user) := by
  refine ⟨?_, ?_, ?_, ?_, ?_⟩
  · rintro (h | h | h)
    · simp [verificarToken, (leerToken_none authorization).mpr (Or.inl h)]
    · simp [verificarToken, (leerToken_none authorization).mpr (Or.inr h)]
    · simp [verificarToken, h]
  · intro token ht hne hv
    simp [verificarToken, ht, hne, hv]
  · intro user
    unfold verificarToken
    cases ht : leerToken authorization with
    | none => simp
    | some token =>
      by_cases hne : token = ""
      · simp [hne]
      · cases hv : verify token with
        | none => simp [hne, hv]
        | some c => simp [hne, hv]
  · intro ρ handler rechazo status message h
    simp [protegida, h]
  · intro ρ handler rechazo user h
    simp [protegida, h]

/-- C8, witness: a token service that knows the token `abc` only; a request
without header, one with the rejected token `xyz`, one with `abc`. -/
theorem C8_verificarToken_witness :
    verificarToken (fun t => if t = "abc" then some ⟨7, "ana", "user"⟩ else none) none
        = .responde 401 "Acceso denegado. No hay token." ∧
      verificarToken (fun t => if t = "abc" then some ⟨7, "ana", "user"⟩ else none)
          (some "Bearer xyz") = .responde 400 "Token inválido" ∧
      verificarToken (fun t => if t = "abc" then some ⟨7, "ana", "user"⟩ else none)
          (some "Bearer abc") = .next ⟨7, "ana", "user"⟩ :=
  ⟨(C8_verificarToken _ none).1 (Or.inl rfl),
    (C8_verificarToken _ (some "Bearer xyz")).2.1 "xyz" (by decide) (by decide) (by decide),
    ((C8_verificarToken _ (some "Bearer abc")).2.2.1 ⟨7, "ana", "user"⟩).mpr
      ⟨"abc", by decide, by decide, by decide⟩⟩

/-! ## C9: reading one document -/

/-- C9 (amended): for a route parameter that is a well-formed identifier,
`GET /api/facturas/:id` and `GET /api/clientes/:id` return a stored entity with
that identifier owned by the requesting user when there is one, and 404 when
there is none, in particular when the entity belongs to another user; for a
parameter that fails the cast to an identifier the answer is 500. -/
theorem C9_leer_por_id (facturas : List Factura) (clientes : List Cliente) (user : Claims)
    (id : String) :
    (∀ oid, castObjectId id = .valor oid →
      ((∃ f ∈ facturas, f._id = oid ∧ f.userId = user.id) →
        ∃ f ∈ facturas, f._id = oid ∧ f.userId = user.id ∧
          getFacturaPorId facturas clientes user id
            = some (.json 200 ⟨f, clientes.find? (fun c => c._id == f.clienteId)⟩)) ∧
      ((∀ f ∈ facturas, f._id = oid → f.userId ≠ user.id) →
        getFacturaPorId facturas clientes user id
          = some (.mensaje 404 "Factura no encontrada")) ∧
      ((∃ c ∈ clientes, c._id = oid ∧ c.userId = user.id) →
        ∃ c ∈ clientes, c._id = oid ∧ c.userId = user.id ∧
          getClientePorId clientes user id = some (.json 200 c)) ∧
      ((∀ c ∈ clientes, c._id = oid → c.userId ≠ user.id) →
        getClientePorId clientes user id = some (.mensaje 404 "Cliente no encontrado"))) ∧
    (castObjectId id = .error →
      getFacturaPorId facturas clientes user id
          = some (.mensaje 500 "Error obteniendo factura") ∧
        getClientePorId clientes user id = some (.mensaje 500 "Error obteniendo cliente")) := by
  refine ⟨?_, ?_⟩
  · intro oid hoid
    refine ⟨?_, ?_, ?_, ?_⟩
    · rintro ⟨f, hf, h1, h2⟩
      have : (facturas.find? (fun f => f._id == oid && f.userId == user.id)).isSome = true := by
        rw [List.find?_isSome]
        exact ⟨f, hf, by simp [h1, h2]⟩
      obtain ⟨g, hg⟩ := Option.isSome_iff_exists.mp this
      have hp := List.find?_some hg
      simp only [Bool.and_eq_true, beq_iff_eq] at hp
      exact ⟨g, List.mem_of_find?_eq_some hg, hp.1, hp.2, by simp [getFacturaPorId, hoid, hg]⟩
    · intro h
      have : facturas.find? (fun f => f._id == oid && f.userId == user.id) = none := by
        rw [List.find?_eq_none]
        intro x hx
        simp only [Bool.and_eq_true, beq_iff_eq, not_and]
        exact h x hx
      simp [getFacturaPorId, hoid, this]
    · rintro ⟨c, hc, h1, h2⟩
      have : (clientes.find? (fun c => c._id == oid && c.userId == user.id)).isSome = true := by
        rw [List.find?_isSome]
        exact ⟨c, hc, by simp [h1, h2]⟩
      obtain ⟨g, hg⟩ := Option.isSome_iff_exists.mp this
      have hp := List.find?_some hg
      simp only [Bool.and_eq_true, beq_iff_eq] at hp
      exact ⟨g, List.mem_of_find?_eq_some hg, hp.1, hp.2, by simp [getClientePorId, hoid, hg]⟩
    · intro h
      have : clientes.find? (fun c => c._id == oid && c.userId == user.id) = none := by
        rw [List.find?_eq_none]
        intro x hx
        simp only [Bool.and_eq_true, beq_iff_eq, not_and]
        exact h x hx
      simp [getClientePorId, hoid, this]
  · intro h
    simp [getFacturaPorId, getClientePorId, h]

/-- C9, witness: the invoice with identifier 1 read by its owner, user 7, and
by user 8. -/
theorem C9_leer_por_id_witness :
    castObjectId "000000000000000000000001" = .valor 1 ∧
      (∃ f ∈ [facturaEjemplo], f._id = 1 ∧ f.userId = 7 ∧
        getFacturaPorId [facturaEjemplo] [clienteEjemplo] ⟨7, "ana", "user"⟩
            "000000000000000000000001"
          = some (.json 200 ⟨f, [clienteEjemplo].find? (fun c => c._id == f.clienteId)⟩)) ∧
      getFacturaPorId [facturaEjemplo] [clienteEjemplo] ⟨8, "luis", "user"⟩
          "000000000000000000000001" = some (.mensaje 404 "Factura no encontrada") :=
  ⟨by decide,
    ((C9_leer_por_id [facturaEjemplo] [clienteEjemplo] ⟨7, "ana", "user"⟩
      "000000000000000000000001").1 1 (by decide)).1 ⟨facturaEjemplo, by decide⟩,
    ((C9_leer_por_id [facturaEjemplo] [clienteEjemplo] ⟨8, "luis", "user"⟩
      "000000000000000000000001").1 1 (by decide)).2.1 (by decide)⟩

/-- C9, counterexample: the parameter `xyz` is no identifier, and the answer
is 500 where the claim has 404. -/
theorem C9_leer_contraejemplo :
    getFacturaPorId [facturaEjemplo] [clienteEjemplo] ⟨7, "ana", "user"⟩ "xyz"
        = some (.mensaje 500 "Error obteniendo factura") ∧
      getClientePorId [clienteEjemplo] ⟨7, "ana", "user"⟩ "xyz"
        = some (.mensaje 500 "Error obteniendo cliente") := by
  decide

end Eva

namespace Eva

/-! ## C10: registration -/

theorem requerido_of_ne {t : String} (h : t ≠ "") : requerido (some t) = some t := by
  simp [requerido, Option.filter, h]

/-- C10: for a registration payload with a non-empty username that no stored
user has, a password and a role that is absent or one of `admin`, `contador`,
`user`, `POST /api/register` answers 201, appends exactly one user with that
username, the hashed password and the role (`user` when absent), and returns
the token signed for the new user's identifier, the username and the role,
which a token service that verifies what it signs decodes to these; for a
username that a stored user has it answers 400 and leaves the store
unchanged. -/
theorem C10_registro {τ : Type} (hash : String → String → String) (sign : Claims → τ)
    (verify : τ → Option Claims) (users : List User) (idNuevo : ObjectId) (ahora : Fecha)
    (salt username password : String) (role : Option String)
    (hverify : ∀ c, verify (sign c) = some c)
    (husername : username ≠ "")
    (hhash : hash password salt ≠ "")
    (hrole : ∀ r, role = some r → r ∈ ["admin", "contador", "user"])
    (hid : ∀ u ∈ users, u._id ≠ idNuevo) :
    ((∀ u ∈ users, u.username ≠ username) →
      ∃ (nuevo : User) (token : τ),
        postRegister hash sign users idNuevo ahora salt ⟨some username, some password, role⟩
          = (.json 201 { message := "Registro exitoso", token := token,
                         user := ⟨idNuevo, username, role.getD "user"⟩ },
             users ++ [nuevo]) ∧
        verify token = some ⟨idNuevo, username, role.getD "user"⟩ ∧
        nuevo._id = idNuevo ∧ nuevo.username = username ∧
        nuevo.password = hash password salt ∧ nuevo.role = role.getD "user") ∧
    ((∃ u ∈ users, u.username = username) →
      postRegister hash sign users idNuevo ahora salt ⟨some username, some password, role⟩
        = (.mensaje 400 "El usuario ya existe", users)) := by
  refine ⟨?_, ?_⟩
  · intro hnuevo
    have hfind : users.find? (fun u => some u.username == some username) = none := by
      rw [List.find?_eq_none]
      intro u hu
      simpa using hnuevo u hu
    have hrol : enEnum ["admin", "contador", "user"] "user" (some (role.getD "user"))
        = some (role.getD "user") := by
      cases role with
      | none => decide
      | some r => simp [enEnum, hrole r rfl]
    have hval : UserSchema.validar idNuevo ahora (some username) (some (hash password salt))
        (some (role.getD "user"))
        = some { _id := idNuevo, username := username, password := hash password salt,
                 role := role.getD "user", nombre := none, email := none, telefono := none,
                 createdAt := ahora } := by
      simp [UserSchema.validar, requerido_of_ne husername, requerido_of_ne hhash, hrol]
    have hany : users.any (fun e => User.indices.any (fun k => k e
        { _id := idNuevo, username := username, password := hash password salt,
          role := role.getD "user", nombre := none, email := none, telefono := none,
          createdAt := ahora })) = false := by
      rw [Bool.eq_false_iff]
      intro ht
      simp only [User.indices, List.any_eq_true, List.any_cons, List.any_nil, Bool.or_false,
        Bool.or_eq_true, beq_iff_eq] at ht
      obtain ⟨e, he, h1 | h2⟩ := ht
      · exact hid e he h1
      · exact hnuevo e he h2
    refine ⟨{ _id := idNuevo, username := username, password := hash password salt,
              role := role.getD "user", nombre := none, email := none, telefono := none,
              createdAt := ahora },
      sign ⟨idNuevo, username, role.getD "user"⟩, ?_, hverify _, rfl, rfl, rfl, rfl⟩
    simp only [postRegister, hfind, hval, guardar_libre hany]
  · rintro ⟨u, hu, hname⟩
    have : (users.find? (fun u => some u.username == some username)).isSome = true := by
      rw [List.find?_isSome]
      exact ⟨u, hu, by simp [hname]⟩
    obtain ⟨x, hx⟩ := Option.isSome_iff_exists.mp this
    simp only [postRegister, hx]

/-- C10, witness: the registration of `ana` without a role into a store that
holds `luis`, with a token service whose tokens are the claims themselves. -/
theorem C10_registro_witness :
    ∃ (nuevo : User) (token : Claims),
      postRegister (fun p s => s ++ p) id [usuarioEjemplo] 9 0 "sal" ⟨some "ana", some "clave", none⟩
        = (.json 201 { message := "Registro exitoso", token := token,
                       user := ⟨9, "ana", "user"⟩ },
           [usuarioEjemplo] ++ [nuevo]) ∧
      some token = some (⟨9, "ana", "user"⟩ : Claims) ∧
      nuevo._id = 9 ∧ nuevo.username = "ana" ∧
      nuevo.password = "sal" ++ "clave" ∧ nuevo.role = "user" :=
  (C10_registro (fun p s => s ++ p) id some [usuarioEjemplo] 9 0 "sal" "ana" "clave" none
    (fun _ => rfl) (by decide) (by decide) (by simp) (by decide)).1 (by decide)

end Eva

namespace Eva

/-! ## C11: one number for two users -/

/-- A stored invoice that holds the number generated for the user makes the
creation fail on the unique index of `numero`. -/
theorem postFacturas_rechazo (col : List Factura) (user : Claims) (idNuevo : ObjectId)
    (ahora : Fecha) (body : CuerpoFactura)
    (h : ∃ e ∈ col, e.numero = generarNumero "FAC" (cuenta Factura.userId col user.id)) :
    postFacturas col user idNuevo ahora body = (.mensaje 400 "Error creando factura", col) := by
  rcases postFacturas_casos col user idNuevo ahora body with h400 | ⟨f, _, hn, _, _, hlibre⟩
  · exact h400
  · exfalso
    obtain ⟨e, he, hen⟩ := h
    have : col.any (fun e => Factura.indices.any (fun k => k e f)) = true := by
      simp only [Factura.indices, List.any_eq_true, List.any_cons, List.any_nil, Bool.or_false,
        Bool.or_eq_true, beq_iff_eq]
      exact ⟨e, he, Or.inr (by rw [hen, hn])⟩
    rw [this] at hlibre
    cases hlibre

/-- A stored delivery note that holds the number generated for the user makes
the creation fail on the unique index of `numero`. -/
theorem postRemisiones_rechazo (col : List Remision) (user : Claims) (idNuevo : ObjectId)
    (ahora : Fecha) (body : CuerpoRemision)
    (h : ∃ e ∈ col, e.numero = generarNumero "REM" (cuenta Remision.userId col user.id)) :
    postRemisiones col user idNuevo ahora body = (.mensaje 400 "Error creando remisión", col) := by
  rcases postRemisiones_casos col user idNuevo ahora body with h400 | ⟨f, _, hn, _, _, hlibre⟩
  · exact h400
  · exfalso
    obtain ⟨e, he, hen⟩ := h
    have : col.any (fun e => Remision.indices.any (fun k => k e f)) = true := by
      simp only [Remision.indices, List.any_eq_true, List.any_cons, List.any_nil, Bool.or_false,
        Bool.or_eq_true, beq_iff_eq]
      exact ⟨e, he, Or.inr (by rw [hen, hn])⟩
    rw [this] at hlibre
    cases hlibre

theorem atenderFacturas_rechazadas (col : List Factura) (v : ObjectId)
    (h : ∃ e ∈ col, e.numero = generarNumero "FAC" (cuenta Factura.userId col v))
    (rs : List (Peticion CuerpoFactura)) (hrs : ∀ r ∈ rs, r.user.id = v) :
    atenderFacturas col rs
      = (rs.map (fun _ => Respuesta.mensaje 400 "Error creando factura"), col) := by
  induction rs with
  | nil => rfl
  | cons r rs ih =>
    have hr : r.user.id = v := hrs r (List.mem_cons_self _ _)
    have hp := postFacturas_rechazo col r.user r.idNuevo r.ahora r.body (by rw [hr]; exact h)
    simp only [atenderFacturas, hp, List.map_cons,
      ih (fun x hx => hrs x (List.mem_cons_of_mem _ hx))]

theorem atenderRemisiones_rechazadas (col : List Remision) (v : ObjectId)
    (h : ∃ e ∈ col, e.numero = generarNumero "REM" (cuenta Remision.userId col v))
    (rs : List (Peticion CuerpoRemision)) (hrs : ∀ r ∈ rs, r.user.id = v) :
    atenderRemisiones col rs
      = (rs.map (fun _ => Respuesta.mensaje 400 "Error creando remisión"), col) := by
  induction rs with
  | nil => rfl
  | cons r rs ih =>
    have hr : r.user.id = v := hrs r (List.mem_cons_self _ _)
    have hp := postRemisiones_rechazo col r.user r.idNuevo r.ahora r.body (by rw [hr]; exact h)
    simp only [atenderRemisiones, hp, List.map_cons,
      ih (fun x hx => hrs x (List.mem_cons_of_mem _ hx))]

theorem cuenta_append_otro {α : Type} (userId : α → ObjectId) (col : List α) (f : α)
    (v : ObjectId) (h : userId f ≠ v) :
    cuenta userId (col ++ [f]) v = cuenta userId col v := by
  simp [cuenta, List.filter_append, h]

/-- While a stored invoice holds the number generated for user `v`, a handled
request of `v` is answered 400, and after any handled request the number is
still held and the count of `v` is the same. -/
theorem facturas_bloqueo_paso (col : List Factura) (v : ObjectId)
    (h : ∃ e ∈ col, e.numero = generarNumero "FAC" (cuenta Factura.userId col v))
    (r : Peticion CuerpoFactura) :
    (r.user.id = v → (postFacturas col r.user r.idNuevo r.ahora r.body).1
        = .mensaje 400 "Error creando factura") ∧
    (∃ e ∈ (postFacturas col r.user r.idNuevo r.ahora r.body).2,
      e.numero = generarNumero "FAC"
        (cuenta Factura.userId (postFacturas col r.user r.idNuevo r.ahora r.body).2 v)) ∧
    cuenta Factura.userId (postFacturas col r.user r.idNuevo r.ahora r.body).2 v
      = cuenta Factura.userId col v := by
  rcases postFacturas_casos col r.user r.idNuevo r.ahora r.body with h400 | ⟨g, hg, _, hu, _, _⟩
  · rw [h400]; exact ⟨fun _ => rfl, h, rfl⟩
  · have hne : g.userId ≠ v := by
      intro hv
      have hr := postFacturas_rechazo col r.user r.idNuevo r.ahora r.body
        (by rw [← hu, hv]; exact h)
      rw [hg] at hr
      cases hr
    have hc := cuenta_append_otro Factura.userId col g v hne
    obtain ⟨e, he, hen⟩ := h
    rw [hg]
    refine ⟨fun hv => absurd (hu.trans hv) hne, ⟨e, List.mem_append_left _ he, ?_⟩, hc⟩
    show e.numero = generarNumero "FAC" (cuenta Factura.userId (col ++ [g]) v)
    rw [hc, hen]

theorem atenderFacturas_bloqueo (col : List Factura) (v : ObjectId)
    (h : ∃ e ∈ col, e.numero = generarNumero "FAC" (cuenta Factura.userId col v))
    (rs : List (Peticion CuerpoFactura)) :
    (∀ p ∈ rs.zip (atenderFacturas col rs).1, p.1.user.id = v →
      p.2 = .mensaje 400 "Error creando factura") ∧
    cuenta Factura.userId (atenderFacturas col rs).2 v = cuenta Factura.userId col v := by
  induction rs generalizing col with
  | nil => exact ⟨fun p hp => by simp [atenderFacturas] at hp, rfl⟩
  | cons r rs ih =>
    obtain ⟨h1, h2, h3⟩ := facturas_bloqueo_paso col v h r
    obtain ⟨i1, i2⟩ := ih _ h2
    simp only [atenderFacturas, List.zip_cons_cons, List.mem_cons]
    refine ⟨?_, i2.trans h3⟩
    rintro p (rfl | hp) hv
    · exact h1 hv
    · exact i1 p hp hv

/-- While a stored delivery note holds the number generated for user `v`, a
handled request of `v` is answered 400, and after any handled request the
number is still held and the count of `v` is the same. -/
theorem remisiones_bloqueo_paso (col : List Remision) (v : ObjectId)
    (h : ∃ e ∈ col, e.numero = generarNumero "REM" (cuenta Remision.userId col v))
    (r : Peticion CuerpoRemision) :
    (r.user.id = v → (postRemisiones col r.user r.idNuevo r.ahora r.body).1
        = .mensaje 400 "Error creando remisión") ∧
    (∃ e ∈ (postRemisiones col r.user r.idNuevo r.ahora r.body).2,
      e.numero = generarNumero "REM"
        (cuenta Remision.userId (postRemisiones col r.user r.idNuevo r.ahora r.body).2 v)) ∧
    cuenta Remision.userId (postRemisiones col r.user r.idNuevo r.ahora r.body).2 v
      = cuenta Remision.userId col v := by
  rcases postRemisiones_casos col r.user r.idNuevo r.ahora r.body with
    h400 | ⟨g, hg, _, hu, _, _⟩
  · rw [h400]; exact ⟨fun _ => rfl, h, rfl⟩
  · have hne : g.userId ≠ v := by
      intro hv
      have hr := postRemisiones_rechazo col r.user r.idNuevo r.ahora r.body
        (by rw [← hu, hv]; exact h)
      rw [hg] at hr
      cases hr
    have hc := cuenta_append_otro Remision.userId col g v hne
    obtain ⟨e, he, hen⟩ := h
    rw [hg]
    refine ⟨fun hv => absurd (hu.trans hv) hne, ⟨e, List.mem_append_left _ he, ?_⟩, hc⟩
    show e.numero = generarNumero "REM" (cuenta Remision.userId (col ++ [g]) v)
    rw [hc, hen]

theorem atenderRemisiones_bloqueo (col : List Remision) (v : ObjectId)
    (h : ∃ e ∈ col, e.numero = generarNumero "REM" (cuenta Remision.userId col v))
    (rs : List (Peticion CuerpoRemision)) :
    (∀ p ∈ rs.zip (atenderRemisiones col rs).1, p.1.user.id = v →
      p.2 = .mensaje 400 "Error creando remisión") ∧
    cuenta Remision.userId (atenderRemisiones col rs).2 v = cuenta Remision.userId col v := by
  induction rs generalizing col with
  | nil => exact ⟨fun p hp => by simp [atenderRemisiones] at hp, rfl⟩
  | cons r rs ih =>
    obtain ⟨h1, h2, h3⟩ := remisiones_bloqueo_paso col v h r
    obtain ⟨i1, i2⟩ := ih _ h2
    simp only [atenderRemisiones, List.zip_cons_cons, List.mem_cons]
    refine ⟨?_, i2.trans h3⟩
    rintro p (rfl | hp) hv
    · exact h1 hv
    · exact i1 p hp hv

/-- C11: the number generated for an invoice or a delivery note depends on the
creating user's count only: two users with the same count who each have a
creation succeed from one store are stored under the same `numero`.  Hence,
under the store-wide unique index of `numero`, once user U has created its
document from a store where another user V has the same count, V's count is
still the same and every later creation attempt of V, whatever its body, is
answered 400 and leaves the store as it is, however many times V retries; and
among later requests of any users, those of V are all answered 400 and V's
count stays what it was. -/
theorem C11_numero_compartido :
    (∀ (col colU colV : List Factura) (U V : Claims) (idU idV : ObjectId) (tU tV : Fecha)
        (bU bV : CuerpoFactura) (sU sV : Nat) (f g : Factura),
        cuenta Factura.userId col U.id = cuenta Factura.userId col V.id →
        postFacturas col U idU tU bU = (.json sU f, colU) →
        postFacturas col V idV tV bV = (.json sV g, colV) →
        f.numero = g.numero) ∧
    (∀ (col col' : List Factura) (U V : Claims) (idU : ObjectId) (tU : Fecha)
        (bU : CuerpoFactura) (s : Nat) (f : Factura),
        U.id ≠ V.id →
        cuenta Factura.userId col U.id = cuenta Factura.userId col V.id →
        postFacturas col U idU tU bU = (.json s f, col') →
        cuenta Factura.userId col' V.id = cuenta Factura.userId col V.id ∧
        (∀ rs : List (Peticion CuerpoFactura), (∀ r ∈ rs, r.user.id = V.id) →
          atenderFacturas col' rs
            = (rs.map (fun _ => Respuesta.mensaje 400 "Error creando factura"), col')) ∧
        (∀ rs : List (Peticion CuerpoFactura),
          (∀ p ∈ rs.zip (atenderFacturas col' rs).1, p.1.user.id = V.id →
            p.2 = .mensaje 400 "Error creando factura") ∧
          cuenta Factura.userId (atenderFacturas col' rs).2 V.id
            = cuenta Factura.userId col V.id)) ∧
    (∀ (col colU colV : List Remision) (U V : Claims) (idU idV : ObjectId) (tU tV : Fecha)
        (bU bV : CuerpoRemision) (sU sV : Nat) (f g : Remision),
        cuenta Remision.userId col U.id = cuenta Remision.userId col V.id →
        postRemisiones col U idU tU bU = (.json sU f, colU) →
        postRemisiones col V idV tV bV = (.json sV g, colV) →
        f.numero = g.numero) ∧
    (∀ (col col' : List Remision) (U V : Claims) (idU : ObjectId) (tU : Fecha)
        (bU : CuerpoRemision) (s : Nat) (f : Remision),
        U.id ≠ V.id →
        cuenta Remision.userId col U.id = cuenta Remision.userId col V.id →
        postRemisiones col U idU tU bU = (.json s f, col') →
        cuenta Remision.userId col' V.id = cuenta Remision.userId col V.id ∧
        (∀ rs : List (Peticion CuerpoRemision), (∀ r ∈ rs, r.user.id = V.id) →
          atenderRemisiones col' rs
            = (rs.map (fun _ => Respuesta.mensaje 400 "Error creando remisión"), col')) ∧
        (∀ rs : List (Peticion CuerpoRemision),
          (∀ p ∈ rs.zip (atenderRemisiones col' rs).1, p.1.user.id = V.id →
            p.2 = .mensaje 400 "Error creando remisión") ∧
          cuenta Remision.userId (atenderRemisiones col' rs).2 V.id
            = cuenta Remision.userId col V.id)) := by
  refine ⟨?_, ?_, ?_, ?_⟩
  · intro col colU colV U V idU idV tU tV bU bV sU sV f g hc hU hV
    rw [(postFacturas_json hU).2.2.1, (postFacturas_json hV).2.2.1, hc]
  · intro col col' U V idU tU bU s f hne hc hU
    obtain ⟨_, hcol, hn, hu⟩ := postFacturas_json hU
    have hcuenta : cuenta Factura.userId col' V.id = cuenta Factura.userId col V.id := by
      rw [hcol]
      exact cuenta_append_otro Factura.userId col f V.id (by rw [hu]; exact hne)
    have htomado : ∃ e ∈ col', e.numero
        = generarNumero "FAC" (cuenta Factura.userId col' V.id) :=
      ⟨f, by rw [hcol]; simp, by rw [hn, hcuenta, hc]⟩
    refine ⟨hcuenta, fun rs hrs => atenderFacturas_rechazadas col' V.id htomado rs hrs, ?_⟩
    intro rs
    obtain ⟨h1, h2⟩ := atenderFacturas_bloqueo col' V.id htomado rs
    exact ⟨h1, h2.trans hcuenta⟩
  · intro col colU colV U V idU idV tU tV bU bV sU sV f g hc hU hV
    rw [(postRemisiones_json hU).2.2.1, (postRemisiones_json hV).2.2.1, hc]
  · intro col col' U V idU tU bU s f hne hc hU
    obtain ⟨_, hcol, hn, hu⟩ := postRemisiones_json hU
    have hcuenta : cuenta Remision.userId col' V.id = cuenta Remision.userId col V.id := by
      rw [hcol]
      exact cuenta_append_otro Remision.userId col f V.id (by rw [hu]; exact hne)
    have htomado : ∃ e ∈ col', e.numero
        = generarNumero "REM" (cuenta Remision.userId col' V.id) :=
      ⟨f, by rw [hcol]; simp, by rw [hn, hcuenta, hc]⟩
    refine ⟨hcuenta, fun rs hrs => atenderRemisiones_rechazadas col' V.id htomado rs hrs, ?_⟩
    intro rs
    obtain ⟨h1, h2⟩ := atenderRemisiones_bloqueo col' V.id htomado rs
    exact ⟨h1, h2.trans hcuenta⟩

/-- C11, witness: from the empty store users 7 and 8 would both be given
`FAC-0001`; after user 7 has created it, two attempts of user 8 are both
answered 400 and the store still holds the one invoice. -/
theorem C11_numero_compartido_witness :
    (postFacturas [] ⟨7, "ana", "user"⟩ 1 0 cuerpoFacturaEjemplo
        = (.json 201 facturaEjemplo, [facturaEjemplo]) ∧
      postFacturas [] ⟨8, "luis", "user"⟩ 2 0 cuerpoFacturaEjemplo
        = (.json 201 facturaEjemploOcho, [facturaEjemploOcho]) ∧
      facturaEjemplo.numero = facturaEjemploOcho.numero) ∧
    atenderFacturas [facturaEjemplo]
        [⟨⟨8, "luis", "user"⟩, 2, 10, cuerpoFacturaEjemplo⟩,
         ⟨⟨8, "luis", "user"⟩, 3, 20, cuerpoFacturaAjeno⟩]
      = ([.mensaje 400 "Error creando factura", .mensaje 400 "Error creando factura"],
          [facturaEjemplo]) :=
  ⟨⟨by decide, by decide,
      C11_numero_compartido.1 [] [facturaEjemplo] [facturaEjemploOcho] ⟨7, "ana", "user"⟩
        ⟨8, "luis", "user"⟩ 1 2 0 0 cuerpoFacturaEjemplo cuerpoFacturaEjemplo 201 201
        facturaEjemplo facturaEjemploOcho (by decide) (by decide) (by decide)⟩,
    ((C11_numero_compartido.2.1 [] [facturaEjemplo] ⟨7, "ana", "user"⟩ ⟨8, "luis", "user"⟩ 1 0
        cuerpoFacturaEjemplo 201 facturaEjemplo (by decide) (by decide) (by decide)).2.1
      [⟨⟨8, "luis", "user"⟩, 2, 10, cuerpoFacturaEjemplo⟩,
       ⟨⟨8, "luis", "user"⟩, 3, 20, cuerpoFacturaAjeno⟩] (by decide))⟩

end Eva

namespace Eva

/-! ## C12: the fields set by the server -/

theorem validarMovimiento_some {ν : Type} {idNuevo : ObjectId} {ahora : Fecha}
    {b : CuerpoMovimiento ν} {m : Movimiento ν}
    (h : MovimientoSchema.validar idNuevo ahora b = some m) : b.userId = some m.userId := by
  simp only [MovimientoSchema.validar, Option.bind_eq_bind, Option.bind_eq_some,
    Option.pure_def, Option.some.injEq] at h
  obtain ⟨_, _, _, _, t, _, h⟩ := h
  split at h
  · simp only [Option.some_bind, Option.bind_eq_some, Option.some.injEq] at h
    obtain ⟨u, hu, rfl⟩ := h
    exact hu
  · simp at h

theorem postClientes_json {col col' : List Cliente} {user : Claims} {idNuevo : ObjectId}
    {ahora : Fecha} {body : CuerpoCliente} {s : Nat} {c : Cliente}
    (h : postClientes col user idNuevo ahora body = (.json s c, col')) :
    s = 201 ∧ col' = col ++ [c] ∧ c.userId = user.id := by
  unfold postClientes at h
  split at h
  · cases h
  · split at h
    · next hg =>
      obtain ⟨hv, hcol, _⟩ := guardar_some hg
      obtain ⟨_, hu, _⟩ := validarCliente_some hv
      cases h
      exact ⟨rfl, hcol, by simpa using hu.symm⟩
    · cases h

theorem postMovimientos_json {ν : Type} {col col' : List (Movimiento ν)} {user : Claims}
    {idNuevo : ObjectId} {ahora : Fecha} {body : CuerpoMovimiento ν} {s : Nat}
    {m : Movimiento ν} (h : postMovimientos col user idNuevo ahora body = (.json s m, col')) :
    s = 201 ∧ col' = col ++ [m] ∧ m.userId = user.id := by
  unfold postMovimientos at h
  split at h
  · next hg =>
    obtain ⟨hv, hcol, _⟩ := guardar_some hg
    have hu := validarMovimiento_some hv
    cases h
    exact ⟨rfl, hcol, by simpa using hu.symm⟩
  · cases h

/-- C12: whatever `userId` and `numero` a request body carries, a document
persisted by a create endpoint has the authenticated user's id as `userId` and,
for invoices, quotes and delivery notes, the server-generated number as
`numero`; two bodies that differ in those fields only get the same response
and leave the same store, for invoices, quotes, delivery notes, clients and
movements. -/
theorem C12_campos_del_servidor :
    (∀ (col : List Factura) (user : Claims) (idNuevo : ObjectId) (ahora : Fecha)
        (b : CuerpoFactura),
      (∀ (s : Nat) (f : Factura) (col' : List Factura),
        postFacturas col user idNuevo ahora b = (.json s f, col') →
        col' = col ++ [f] ∧ f.userId = user.id ∧
          f.numero = generarNumero "FAC" (cuenta Factura.userId col user.id)) ∧
      (∀ b' : CuerpoFactura,
        { b with numero := none, userId := none } = { b' with numero := none, userId := none } →
        postFacturas col user idNuevo ahora b = postFacturas col user idNuevo ahora b')) ∧
    (∀ (col : List Cotizacion) (user : Claims) (idNuevo : ObjectId) (ahora : Fecha)
        (b : CuerpoCotizacion),
      (∀ (s : Nat) (f : Cotizacion) (col' : List Cotizacion),
        postCotizaciones col user idNuevo ahora b = (.json s f, col') →
        col' = col ++ [f] ∧ f.userId = user.id ∧
          f.numero = generarNumero "COT" (cuenta Cotizacion.userId col user.id)) ∧
      (∀ b' : CuerpoCotizacion,
        { b with numero := none, userId := none } = { b' with numero := none, userId := none } →
        postCotizaciones col user idNuevo ahora b
          = postCotizaciones col user idNuevo ahora b')) ∧
    (∀ (col : List Remision) (user : Claims) (idNuevo : ObjectId) (ahora : Fecha)
        (b : CuerpoRemision),
      (∀ (s : Nat) (f : Remision) (col' : List Remision),
        postRemisiones col user idNuevo ahora b = (.json s f, col') →
        col' = col ++ [f] ∧ f.userId = user.id ∧
          f.numero = generarNumero "REM" (cuenta Remision.userId col user.id)) ∧
      (∀ b' : CuerpoRemision,
        { b with numero := none, userId := none } = { b' with numero := none, userId := none } →
        postRemisiones col user idNuevo ahora b = postRemisiones col user idNuevo ahora b')) ∧
    (∀ (col : List Cliente) (user : Claims) (idNuevo : ObjectId) (ahora : Fecha)
        (b : CuerpoCliente),
      (∀ (s : Nat) (c : Cliente) (col' : List Cliente),
        postClientes col user idNuevo ahora b = (.json s c, col') →
        col' = col ++ [c] ∧ c.userId = user.id) ∧
      (∀ b' : CuerpoCliente, { b with userId := none } = { b' with userId := none } →
        postClientes col user idNuevo ahora b = postClientes col user idNuevo ahora b')) ∧
    (∀ (ν : Type) (col : List (Movimiento ν)) (user : Claims) (idNuevo : ObjectId)
        (ahora : Fecha) (b : CuerpoMovimiento ν),
      (∀ (s : Nat) (m : Movimiento ν) (col' : List (Movimiento ν)),
        postMovimientos col user idNuevo ahora b = (.json s m, col') →
        col' = col ++ [m] ∧ m.userId = user.id) ∧
      (∀ b' : CuerpoMovimiento ν, { b with userId := none } = { b' with userId := none } →
        postMovimientos col user idNuevo ahora b = postMovimientos col user idNuevo ahora b')) := by
  refine ⟨?_, ?_, ?_, ?_, ?_⟩
  · intro col user idNuevo ahora b
    refine ⟨fun s f col' h => ⟨(postFacturas_json h).2.1, (postFacturas_json h).2.2.2,
      (postFacturas_json h).2.2.1⟩, ?_⟩
    intro b' h
    have e : ∀ (n : String) (u : ObjectId),
        ({ b with numero := some n, userId := some u } : CuerpoFactura)
          = { b' with numero := some n, userId := some u } := by
      intro n u
      cases b; cases b'
      simp only [CuerpoFactura.mk.injEq] at h ⊢
      tauto
    simp only [postFacturas, e]
  · intro col user idNuevo ahora b
    refine ⟨fun s f col' h => ⟨(postCotizaciones_json h).2.1, (postCotizaciones_json h).2.2.2,
      (postCotizaciones_json h).2.2.1⟩, ?_⟩
    intro b' h
    have e : ∀ (n : String) (u : ObjectId),
        ({ b with numero := some n, userId := some u } : CuerpoCotizacion)
          = { b' with numero := some n, userId := some u } := by
      intro n u
      cases b; cases b'
      simp only [CuerpoCotizacion.mk.injEq] at h ⊢
      tauto
    simp only [postCotizaciones, e]
  · intro col user idNuevo ahora b
    refine ⟨fun s f col' h => ⟨(postRemisiones_json h).2.1, (postRemisiones_json h).2.2.2,
      (postRemisiones_json h).2.2.1⟩, ?_⟩
    intro b' h
    have e : ∀ (n : String) (u : ObjectId),
        ({ b with numero := some n, userId := some u } : CuerpoRemision)
          = { b' with numero := some n, userId := some u } := by
      intro n u
      cases b; cases b'
      simp only [CuerpoRemision.mk.injEq] at h ⊢
      tauto
    simp only [postRemisiones, e]
  · intro col user idNuevo ahora b
    refine ⟨fun s c col' h => ⟨(postClientes_json h).2.1, (postClientes_json h).2.2⟩, ?_⟩
    intro b' h
    have e : ∀ u : ObjectId,
        ({ b with userId := some u } : CuerpoCliente) = { b' with userId := some u } := by
      intro u
      cases b; cases b'
      simp only [CuerpoCliente.mk.injEq] at h ⊢
      tauto
    have hnit : b.nit = b'.nit := by
      cases b; cases b'
      simp only [CuerpoCliente.mk.injEq] at h
      exact h.2.2.1
    simp only [postClientes, e]
    rw [hnit]
  · intro ν col user idNuevo ahora b
    refine ⟨fun s m col' h => ⟨(postMovimientos_json h).2.1, (postMovimientos_json h).2.2⟩, ?_⟩
    intro b' h
    have e : ∀ u : ObjectId,
        ({ b with userId := some u } : CuerpoMovimiento ν) = { b' with userId := some u } := by
      intro u
      cases b; cases b'
      simp only [CuerpoMovimiento.mk.injEq] at h ⊢
      tauto
    simp only [postMovimientos, e]

/-- C12, witness: the example body and the same body carrying `FAC-9999` and
user 99 are stored alike by user 7, as `FAC-0001` of user 7. -/
theorem C12_campos_del_servidor_witness :
    ({ cuerpoFacturaAjeno with numero := none, userId := none } : CuerpoFactura)
        = { cuerpoFacturaEjemplo with numero := none, userId := none } ∧
      postFacturas [] ⟨7, "ana", "user"⟩ 1 0 cuerpoFacturaAjeno
        = postFacturas [] ⟨7, "ana", "user"⟩ 1 0 cuerpoFacturaEjemplo ∧
      postFacturas [] ⟨7, "ana", "user"⟩ 1 0 cuerpoFacturaAjeno
        = (.json 201 facturaEjemplo, [facturaEjemplo]) ∧
      ([facturaEjemplo] = [] ++ [facturaEjemplo] ∧ facturaEjemplo.userId = 7 ∧
        facturaEjemplo.numero = generarNumero "FAC" (cuenta Factura.userId [] 7)) :=
  ⟨by decide,
    (C12_campos_del_servidor.1 [] ⟨7, "ana", "user"⟩ 1 0 cuerpoFacturaAjeno).2
      cuerpoFacturaEjemplo (by decide),
    by decide,
    (C12_campos_del_servidor.1 [] ⟨7, "ana", "user"⟩ 1 0 cuerpoFacturaAjeno).1 201
      facturaEjemplo [facturaEjemplo] (by decide)⟩

end Eva
